import Mathlib

/-!
# ThorVG Lottie expressions: a shallow embedding

Embedding of `src/loaders/lottie/tvgLottieExpressions.{h,cpp}` (the build with
`THORVG_LOTTIE_EXPRESSIONS_SUPPORT`).

* The scripting engine's values live in an explicit object heap that is passed
  through every operation; `jerry_value_free` only drops a reference count and
  has no observable effect here, so it is omitted.
* The engine's number type is a parameter `N` (with its own `+ - * /`), so that
  no statement depends on how doubles round.
* Native `void*` handles are modelled by `NativePtr`; the tag records what the
  pointer really points at, the code itself only ever tests it against null.
* `TVGERR` output is kept in the ghost field `log`, calls through a native
  property handle in the ghost field `calls`.
-/

set_option linter.unusedVariables false
set_option maxRecDepth 100000

namespace ThorVG

/-! ## Native model (the parts of `tvgLottieModel.h` the expressions code touches) -/

/-- The native handle stored in a scripting object: a `void*`, tagged with the
kind of entity it points at. `null` is `nullptr`. -/
inductive NativePtr where
  | null
  | composition (addr : Nat)
  | layer (addr : Nat)
  | property (addr : Nat)
  | expression (addr : Nat)
  | group (addr : Nat)
  deriving DecidableEq, Repr

/-- The handlers registered with `jerry_function_external`. -/
inductive NativeFn where
  | _mul | _sum | _add | _sub | _div
  | _path | _shape | _layer
  | _nearestKey | _valueAtTime | _velocityAtTime | _speedAtTime | _key
  | _comp
  deriving DecidableEq, Repr

/-- Modelled from the spec: `LottieTransform` (declared in `tvgLottieModel.h`);
only the addresses of its five property members are used. -/
structure LottieTransform where
  anchor : Nat
  position : Nat
  scale : Nat
  rotation : Nat
  opacity : Nat
  deriving DecidableEq, Repr

/-- Modelled from the spec: `LottieLayer` (declared in `tvgLottieModel.h`).
`parent` and `transform` are pointers in the source (`none` is `nullptr`);
`timeRemap` is the address of the embedded time-remap property. -/
structure LottieLayer (N : Type) where
  addr : Nat
  w : N
  h : N
  id : N
  parent : Option Nat
  inFrame : N
  outFrame : N
  startFrame : N
  hidden : Bool
  name : String
  transform : Option LottieTransform
  timeRemap : Nat
  deriving DecidableEq, Repr

/-- Modelled from the spec: `LottieProperty` (declared in `tvgLottieModel.h`). -/
structure LottieProperty (N : Type) where
  addr : Nat
  frameCnt : N
  nearest : N → N

/-- Modelled from the spec: `LottieObject` (declared in `tvgLottieModel.h`): an
object whose `type` is `Transform` is a `LottieTransform`; every other type is
kept as its tag. -/
inductive LottieObject where
  | transform (t : LottieTransform)
  | other (type : Nat)
  deriving DecidableEq, Repr

/-- Modelled from the spec: `LottieComposition` (declared in
`tvgLottieModel.h`), with the operations of section 6 of the specification. -/
structure LottieComposition (N : Type) where
  addr : Nat
  w : N
  h : N
  name : String
  rootChildrenCount : N
  duration : N
  frameCnt : N
  timeAtFrame : N → N
  frameAtTime : N → N
  layerByIndex : Nat → Option (LottieLayer N)
  layerByName : String → Option (LottieLayer N)
  asset : String → Option (LottieLayer N)

/-- The record `LottieExpression` of `tvgLottieExpressions.h`. -/
structure LottieExpression (N : Type) where
  addr : Nat
  code : String
  comp : LottieComposition N
  layer : LottieLayer N
  object : LottieObject
  property : LottieProperty N

/-- The pointer value of a `LottieLayer*`. -/
def layerPtr : Option Nat → NativePtr
  | none => .null
  | some a => .layer a

/-! ## Scripting values and the object heap -/

/-- A `jerry_value_t`. Objects and functions are references into the heap. -/
inductive JValue (N : Type) where
  | undefined
  | boolean (b : Bool)
  | number (n : N)
  | string (s : String)
  | object (ref : Nat)
  | exception (message : String)
  deriving DecidableEq, Repr

/-- A heap cell: a plain object, or an external function when `function` is set.
`native` is the pointer registered under the type info `nullptr`. -/
structure JObject (N : Type) where
  function : Option NativeFn
  native : NativePtr
  props : List (String × JValue N)
  deriving DecidableEq, Repr

abbrev Heap (N : Type) := List (JObject N)

/-- The scripting engine itself: running a program text against the heap, and the
language's number conversion of a value that is not a number. -/
structure Engine (N : Type) where
  eval : String → Heap N → Heap N × JValue N
  toNumber : JValue N → JValue N

section Api

variable {N : Type}

/-- Assignment in an insertion-ordered property list. -/
def setProp (ps : List (String × JValue N)) (k : String) (v : JValue N) :
    List (String × JValue N) :=
  match ps with
  | [] => [(k, v)]
  | (k', v') :: t => if k' = k then (k, v) :: t else (k', v') :: setProp t k v

/-- Lookup in a property list; a missing key reads as `undefined`. -/
def getProp (ps : List (String × JValue N)) (k : String) : JValue N :=
  match ps with
  | [] => .undefined
  | (k', v') :: t => if k' = k then v' else getProp t k

/-- Modelled from the spec: `jerry_undefined` of the scripting engine. -/
def jerry_undefined : JValue N := .undefined

/-- Modelled from the spec: `jerry_number` of the scripting engine. -/
def jerry_number (n : N) : JValue N := .number n

/-- Modelled from the spec: `jerry_boolean` of the scripting engine. -/
def jerry_boolean (b : Bool) : JValue N := .boolean b

/-- Modelled from the spec: `jerry_string` of the scripting engine. -/
def jerry_string (s : String) : JValue N := .string s

/-- Modelled from the spec: `jerry_value_is_number` of the scripting engine. -/
def jerry_value_is_number : JValue N → Bool
  | .number _ => true
  | _ => false

/-- Modelled from the spec: `jerry_value_is_undefined` of the scripting engine. -/
def jerry_value_is_undefined : JValue N → Bool
  | .undefined => true
  | _ => false

/-- Modelled from the spec: `jerry_value_is_exception` of the scripting engine. -/
def jerry_value_is_exception : JValue N → Bool
  | .exception _ => true
  | _ => false

/-- Modelled from the spec: `jerry_value_as_number` of the scripting engine: the
number itself, and zero for a value that is not a number. -/
def jerry_value_as_number [Zero N] : JValue N → N
  | .number n => n
  | _ => 0

/-- Modelled from the spec: `jerry_value_to_number` of the scripting engine: a
number converts to itself, any other value by the language's conversion. -/
def jerry_value_to_number (toNumber : JValue N → JValue N) : JValue N → JValue N
  | .number n => .number n
  | v => toNumber v

/-- Modelled from the spec: `jerry_object` of the scripting engine: a fresh
empty object at the end of the heap. -/
def jerry_object (h : Heap N) : JValue N × Heap N :=
  (.object h.length, h ++ [⟨none, .null, []⟩])

/-- Modelled from the spec: `jerry_function_external` of the scripting engine: a
fresh function object that calls the given handler. -/
def jerry_function_external (h : Heap N) (f : NativeFn) : JValue N × Heap N :=
  (.object h.length, h ++ [⟨some f, .null, []⟩])

/-- Modelled from the spec: `jerry_object_set_native_ptr` (type info `nullptr`)
of the scripting engine; no effect on a value that is not an object. -/
def jerry_object_set_native_ptr (h : Heap N) (obj : JValue N) (p : NativePtr) : Heap N :=
  match obj with
  | .object r =>
    match h[r]? with
    | some o => h.set r { o with native := p }
    | none => h
  | _ => h

/-- Modelled from the spec: `jerry_object_get_native_ptr` (type info `nullptr`)
of the scripting engine; null for a value that is not an object and for an
object that has no pointer attached. -/
def jerry_object_get_native_ptr (h : Heap N) (obj : JValue N) : NativePtr :=
  match obj with
  | .object r =>
    match h[r]? with
    | some o => o.native
    | none => .null
  | _ => .null

/-- Modelled from the spec: `jerry_object_set_sz` of the scripting engine; no
effect on a value that is not an object (the engine answers with an error value,
which every caller here drops). -/
def jerry_object_set_sz (h : Heap N) (obj : JValue N) (key : String) (v : JValue N) : Heap N :=
  match obj with
  | .object r =>
    match h[r]? with
    | some o => h.set r { o with props := setProp o.props key v }
    | none => h
  | _ => h

/-- Modelled from the spec: `jerry_object_get_sz` of the scripting engine:
`undefined` for a missing key, an error value when the receiver is no object. -/
def jerry_object_get_sz (h : Heap N) (obj : JValue N) (key : String) : JValue N :=
  match obj with
  | .object r =>
    match h[r]? with
    | some o => getProp o.props key
    | none => .undefined
  | _ => .exception "TypeError"

/-- The handler a value calls when it is an external function object (what
`jerry_function_external` was given when the object was made). -/
def externalHandler (h : Heap N) (v : JValue N) : Option NativeFn :=
  match v with
  | .object r =>
    match h[r]? with
    | some o => o.function
    | none => none
  | _ => none

/-- Modelled from the spec: `jerry_init` followed by `jerry_current_realm`: a
new engine instance holds its global object only, at reference 0 (the
language's built-in globals are not modelled). -/
def jerry_init : Heap N := [⟨none, .null, []⟩]

/-- Modelled from the spec: `jerry_current_realm` of the scripting engine. -/
def jerry_current_realm : JValue N := .object 0

end Api

/-! ## `tvgLottieExpressions.cpp`: internal functions -/

section Helpers

variable {N : Type}

def EXP_NAME : String := "name"
def EXP_CONTENT : String := "content"
def EXP_WIDTH : String := "width"
def EXP_HEIGHT : String := "height"

/-- Handler `_mul`: the product of the two arguments, each converted to a number. -/
def _mul [Zero N] [Mul N] (toNumber : JValue N → JValue N) (args : List (JValue N)) :
    JValue N :=
  if args.length ≠ 2 then jerry_undefined
  else
    let arg0 := jerry_value_to_number toNumber (args.getD 0 .undefined)
    let arg1 := jerry_value_to_number toNumber (args.getD 1 .undefined)
    let ret := jerry_value_as_number arg0 * jerry_value_as_number arg1
    jerry_number ret

/-- Handler `_sum`. -/
def _sum [Zero N] [Add N] (toNumber : JValue N → JValue N) (args : List (JValue N)) :
    JValue N :=
  if args.length ≠ 2 then jerry_undefined
  else
    let arg0 := jerry_value_to_number toNumber (args.getD 0 .undefined)
    let arg1 := jerry_value_to_number toNumber (args.getD 1 .undefined)
    let ret := jerry_value_as_number arg0 + jerry_value_as_number arg1
    jerry_number ret

/-- Handler `_add`. -/
def _add [Zero N] [Add N] (toNumber : JValue N → JValue N) (args : List (JValue N)) :
    JValue N :=
  if args.length ≠ 2 then jerry_undefined
  else
    let arg0 := jerry_value_to_number toNumber (args.getD 0 .undefined)
    let arg1 := jerry_value_to_number toNumber (args.getD 1 .undefined)
    let ret := jerry_value_as_number arg0 + jerry_value_as_number arg1
    jerry_number ret

/-- Handler `_sub`. -/
def _sub [Zero N] [Sub N] (toNumber : JValue N → JValue N) (args : List (JValue N)) :
    JValue N :=
  if args.length ≠ 2 then jerry_undefined
  else
    let arg0 := jerry_value_to_number toNumber (args.getD 0 .undefined)
    let arg1 := jerry_value_to_number toNumber (args.getD 1 .undefined)
    let ret := jerry_value_as_number arg0 - jerry_value_as_number arg1
    jerry_number ret

/-- Handler `_div`. -/
def _div [Zero N] [Div N] (toNumber : JValue N → JValue N) (args : List (JValue N)) :
    JValue N :=
  if args.length ≠ 2 then jerry_undefined
  else
    let arg0 := jerry_value_to_number toNumber (args.getD 0 .undefined)
    let arg1 := jerry_value_to_number toNumber (args.getD 1 .undefined)
    let ret := jerry_value_as_number arg0 / jerry_value_as_number arg1
    jerry_number ret

/-- Function `_buildTransform`: nothing is built for a null transform. -/
def _buildTransform (h : Heap N) (context : JValue N) (transform : Option LottieTransform) :
    Heap N :=
  match transform with
  | none => h
  | some transform =>
    let (obj, h) := jerry_object h
    let h := jerry_object_set_sz h context "transform" obj
    let (anchorPoint, h) := jerry_object h
    let h := jerry_object_set_native_ptr h anchorPoint (.property transform.anchor)
    let h := jerry_object_set_sz h obj "position" anchorPoint
    let (position, h) := jerry_object h
    let h := jerry_object_set_native_ptr h position (.property transform.position)
    let h := jerry_object_set_sz h obj "position" position
    let (scale, h) := jerry_object h
    let h := jerry_object_set_native_ptr h scale (.property transform.scale)
    let h := jerry_object_set_sz h obj "scale" scale
    let (rotation, h) := jerry_object h
    let h := jerry_object_set_native_ptr h rotation (.property transform.rotation)
    let h := jerry_object_set_sz h obj "rotation" rotation
    let (opacity, h) := jerry_object h
    let h := jerry_object_set_native_ptr h opacity (.property transform.opacity)
    let h := jerry_object_set_sz h obj "rotation" opacity
    h

/-- Function `_buildLayer`. -/
def _buildLayer (h : Heap N) (context : JValue N) (layer : LottieLayer N)
    (comp : LottieComposition N) : Heap N :=
  let width := jerry_number layer.w
  let h := jerry_object_set_sz h context EXP_WIDTH width
  let height := jerry_number layer.h
  let h := jerry_object_set_sz h context EXP_HEIGHT height
  let index := jerry_number layer.id
  let h := jerry_object_set_sz h context "index" index
  let (parent, h) := jerry_object h
  let h := jerry_object_set_native_ptr h parent (layerPtr layer.parent)
  let h := jerry_object_set_sz h context "parent" parent
  let hasParent := jerry_boolean (if layerPtr layer.parent ≠ .null then true else false)
  let h := jerry_object_set_sz h context "hasParent" hasParent
  let inPoint := jerry_number layer.inFrame
  let h := jerry_object_set_sz h context "inPoint" inPoint
  let outPoint := jerry_number layer.outFrame
  let h := jerry_object_set_sz h context "outPoint" outPoint
  let startTime := jerry_number (comp.timeAtFrame layer.startFrame)
  let h := jerry_object_set_sz h context "startTime" startTime
  let hasVideo := jerry_boolean false
  let h := jerry_object_set_sz h context "hasVideo" hasVideo
  let hasAudio := jerry_boolean false
  let h := jerry_object_set_sz h context "hasAudio" hasAudio
  let enabled := jerry_boolean (!layer.hidden)
  let h := jerry_object_set_sz h context "enabled" enabled
  let audioActive := jerry_boolean false
  let h := jerry_object_set_sz h context "audioActive" audioActive
  let h := _buildTransform h context layer.transform
  let (timeRemap, h) := jerry_object h
  let h := jerry_object_set_native_ptr h timeRemap (.property layer.timeRemap)
  let h := jerry_object_set_sz h context "timeRemap" timeRemap
  let name := jerry_string layer.name
  let h := jerry_object_set_sz h context EXP_NAME name
  h

/-- Function `_buildProperty`. -/
def _buildProperty [Zero N] (h : Heap N) (context : JValue N) (exp : LottieExpression N) :
    Heap N :=
  let (value, h) := jerry_object h
  let h := jerry_object_set_sz h context "value" value
  let h := jerry_object_set_native_ptr h value (.property exp.property.addr)
  let (valueAtTime, h) := jerry_function_external h ._valueAtTime
  let h := jerry_object_set_sz h context "valueAtTime" valueAtTime
  let h := jerry_object_set_native_ptr h valueAtTime (.expression exp.addr)
  let velocity := jerry_number (0 : N)
  let h := jerry_object_set_sz h context "velocity" velocity
  let (velocityAtTime, h) := jerry_function_external h ._velocityAtTime
  let h := jerry_object_set_sz h context "velocityAtTime" velocityAtTime
  let h := jerry_object_set_native_ptr h velocityAtTime (.expression exp.addr)
  let speed := jerry_number (0 : N)
  let h := jerry_object_set_sz h context "speed" speed
  let (speedAtTime, h) := jerry_function_external h ._speedAtTime
  let h := jerry_object_set_sz h context "speedAtTime" speedAtTime
  let h := jerry_object_set_native_ptr h speedAtTime (.expression exp.addr)
  let (key, h) := jerry_function_external h ._key
  let h := jerry_object_set_sz h context "key" key
  let h := jerry_object_set_native_ptr h key (.expression exp.addr)
  let (nearestKey, h) := jerry_function_external h ._nearestKey
  let h := jerry_object_set_native_ptr h nearestKey (.expression exp.addr)
  let h := jerry_object_set_sz h context "nearestKey" nearestKey
  let numKeys := jerry_number exp.property.frameCnt
  let h := jerry_object_set_sz h context "numKeys" numKeys
  let (content, h) := jerry_function_external h ._shape
  let h := jerry_object_set_sz h context EXP_CONTENT content
  let h := jerry_object_set_native_ptr h content (.layer exp.layer.addr)
  h

end Helpers

/-- The native side a lookup handler reaches through the handle of its function
object, and the two conversions of an argument the handlers use.
`composition p` is the composition a `LottieComposition*` of value `p` points
at; `layerContent p name` is `content(name)` of the layer a `LottieLayer*` of
value `p` points at and `groupContent p name` the same for a `LottieGroup*`
(the address of the object found, `none` for `nullptr`); `toString` is the
language's string conversion of a value that is not a string and `trunc` the
integer part of a number. `cut s size` is the C string a buffer of `size` bytes
and a terminator reads as after the engine copied the UTF-8 form of `s` into
it, in the cases where that is not `s` itself: the form is longer than the
buffer, or has a zero byte. -/
structure Host (N : Type) where
  composition : NativePtr → LottieComposition N
  layerContent : NativePtr → String → Option Nat
  groupContent : NativePtr → String → Option Nat
  toString : JValue N → JValue N
  trunc : N → Int
  cut : String → Nat → String

section Handlers

variable {N : Type}

/-- Modelled from the spec: `jerry_value_to_string` of the scripting engine: a
string converts to itself, any other value by the language's conversion. -/
def jerry_value_to_string (toString : JValue N → JValue N) : JValue N → JValue N
  | .string s => .string s
  | v => toString v

/-- Modelled from the spec: `jerry_value_as_integer` of the scripting engine:
the integer part of a number, and zero for a value that is not a number. -/
def jerry_value_as_integer (trunc : N → Int) : JValue N → Int
  | .number n => trunc n
  | _ => 0

/-- Modelled from the spec: `jerry_string_length` of the scripting engine: the
number of characters of a string, counted in 16-bit units (a character beyond
the basic plane counts twice), and zero for a value that is not a string. -/
def jerry_string_length : JValue N → Nat
  | .string s => (s.data.map (fun c => if c.toNat < 65536 then 1 else 2)).sum
  | _ => 0

/-- Modelled from the spec: `jerry_string_to_buffer` with `JERRY_ENCODING_UTF8`
into a buffer of `size` bytes, read back as the C string the buffer holds once
the caller has put the terminator behind it. The UTF-8 form is copied whole when
it fits; the buffer then reads as the string itself unless that has a zero
byte. Otherwise the copy is cut to the buffer and the reading is `cut`. Nothing
is copied from a value that is not a string. -/
def jerry_string_to_buffer (cut : String → Nat → String) (v : JValue N) (size : Nat) :
    String :=
  match v with
  | .string s => if s.utf8ByteSize ≤ size ∧ Char.ofNat 0 ∉ s.data then s else cut s size
  | _ => ""

/-- Function `_name`: the argument converted to a string and copied, as UTF-8,
into a buffer sized by the number of characters of the string, not by the
number of bytes of its UTF-8 form: a name with a character outside ASCII
arrives cut. -/
def _name (H : Host N) (args : JValue N) : String :=
  let arg0 := jerry_value_to_string H.toString args
  let len := jerry_string_length arg0
  let name := jerry_string_to_buffer H.cut arg0 len
  name

/-- Handler `_path`; `function` is `info->function`. The handle attached to the
object returned is the address of the path set of the path found. -/
def _path (H : Host N) (h : Heap N) (function : JValue N) (args : List (JValue N)) :
    JValue N × Heap N :=
  if args.length ≠ 1 then (jerry_undefined, h)
  else
    let name := _name H (args.getD 0 .undefined)
    let group := jerry_object_get_native_ptr h function
    let path := H.groupContent group name
    match path with
    | none => (jerry_undefined, h)
    | some path =>
      let (pathset, h) := jerry_object h
      let h := jerry_object_set_native_ptr h pathset (.property path)
      let h := jerry_object_set_sz h pathset "path" pathset
      (pathset, h)

/-- Handler `_shape`; `function` is `info->function`. -/
def _shape (H : Host N) (h : Heap N) (function : JValue N) (args : List (JValue N)) :
    JValue N × Heap N :=
  if args.length ≠ 1 then (jerry_undefined, h)
  else
    let name := _name H (args.getD 0 .undefined)
    let layer := jerry_object_get_native_ptr h function
    let group := H.layerContent layer name
    match group with
    | none => (jerry_undefined, h)
    | some group =>
      let (property, h) := jerry_function_external h ._path
      let h := jerry_object_set_native_ptr h property (.group group)
      let h := jerry_object_set_sz h property EXP_CONTENT property
      (property, h)

/-- Handler `_layer`; `function` is `info->function`. A number argument is the
layer index, cast to `uint16_t`; any other argument is taken as the name. -/
def _layer (H : Host N) (h : Heap N) (function : JValue N) (args : List (JValue N)) :
    JValue N × Heap N :=
  if args.length ≠ 1 then (jerry_undefined, h)
  else
    let comp := H.composition (jerry_object_get_native_ptr h function)
    let layer :=
      if jerry_value_is_number (args.getD 0 .undefined) then
        let idx := (jerry_value_as_integer H.trunc (args.getD 0 .undefined) % 65536).toNat
        comp.layerByIndex idx
      else
        let name := _name H (args.getD 0 .undefined)
        comp.layerByName name
    match layer with
    | none => (jerry_undefined, h)
    | some layer =>
      let (obj, h) := jerry_object h
      let h := jerry_object_set_native_ptr h obj (.layer layer.addr)
      let h := _buildLayer h obj layer comp
      (obj, h)

/-- Handler `_comp`; `function` is `info->function`. The source converts the
argument to the name in place, by the same steps as `_name`. -/
def _comp (H : Host N) (h : Heap N) (function : JValue N) (args : List (JValue N)) :
    JValue N × Heap N :=
  if args.length ≠ 1 then (jerry_undefined, h)
  else
    let comp := H.composition (jerry_object_get_native_ptr h function)
    let name := _name H (args.getD 0 .undefined)
    let layer := comp.asset name
    match layer with
    | none => (jerry_undefined, h)
    | some layer =>
      let (obj, h) := jerry_object h
      let h := jerry_object_set_native_ptr h obj (.layer layer.addr)
      let h := _buildLayer h obj layer comp
      (obj, h)

end Handlers

/-! ## `struct LottieExpressions` -/

/-- The session object `LottieExpressions`. `heap` is the state of the engine
instance the session drives; `log` and `calls` are ghost fields recording the
`TVGERR` lines written and the calls made through native property handles. A
field the C++ leaves uninitialised before `prepare` holds an arbitrary value. -/
structure LottieExpressions (N : Type) where
  heap : Heap N
  global : JValue N
  thisComp : JValue N
  thisLayer : JValue N
  thisProperty : JValue N
  comp : LottieComposition N
  prepared : Bool
  log : List String
  calls : List (NativePtr × N)

section Session

variable {N : Type}

/-- Method `LottieExpressions::buildMath`. -/
def buildMath (s : LottieExpressions N) : LottieExpressions N :=
  let h := s.heap
  let (bm_mul, h) := jerry_function_external h ._mul
  let h := jerry_object_set_sz h s.global "$bm_mul" bm_mul
  let (bm_sum, h) := jerry_function_external h ._sum
  let h := jerry_object_set_sz h s.global "bm_sum" bm_sum
  let (bm_add, h) := jerry_function_external h ._add
  let h := jerry_object_set_sz h s.global "bm_add" bm_add
  let (bm_sub, h) := jerry_function_external h ._sub
  let h := jerry_object_set_sz h s.global "bm_sub" bm_sub
  let (bm_div, h) := jerry_function_external h ._div
  let h := jerry_object_set_sz h s.global "bm_div" bm_div
  let (mul, h) := jerry_function_external h ._mul
  let h := jerry_object_set_sz h s.global "$mul" mul
  let (sum, h) := jerry_function_external h ._sum
  let h := jerry_object_set_sz h s.global "sum" sum
  let (add, h) := jerry_function_external h ._add
  let h := jerry_object_set_sz h s.global "add" add
  let (sub, h) := jerry_function_external h ._sub
  let h := jerry_object_set_sz h s.global "sub" sub
  let (div, h) := jerry_function_external h ._div
  let h := jerry_object_set_sz h s.global "div" div
  { s with heap := h }

/-- Method `LottieExpressions::buildComp`. -/
def buildComp (s : LottieExpressions N) : LottieExpressions N :=
  let h := s.heap
  let (layer, h) := jerry_function_external h ._layer
  let h := jerry_object_set_native_ptr h layer (.composition s.comp.addr)
  let h := jerry_object_set_sz h s.thisComp "layer" layer
  let numLayers := jerry_number s.comp.rootChildrenCount
  let h := jerry_object_set_sz h s.thisComp "numLayers" numLayers
  let width := jerry_number s.comp.w
  let h := jerry_object_set_sz h s.thisComp EXP_WIDTH width
  let height := jerry_number s.comp.h
  let h := jerry_object_set_sz h s.thisComp EXP_HEIGHT height
  let duration := jerry_number s.comp.duration
  let h := jerry_object_set_sz h s.thisComp "duration" duration
  let frameDuration := jerry_number s.comp.frameCnt
  let h := jerry_object_set_sz h s.thisComp "frameDuration" frameDuration
  let name := jerry_string s.comp.name
  let h := jerry_object_set_sz h s.thisComp EXP_NAME name
  { s with heap := h }

/-- Method `LottieExpressions::buildGlobal`. -/
def buildGlobal (s : LottieExpressions N) : LottieExpressions N :=
  let h := s.heap
  let global : JValue N := jerry_current_realm
  let (comp, h) := jerry_function_external h ._comp
  let h := jerry_object_set_native_ptr h comp (.composition s.comp.addr)
  let h := jerry_object_set_sz h global "comp" comp
  let (thisComp, h) := jerry_object h
  let h := jerry_object_set_native_ptr h thisComp (.composition s.comp.addr)
  let h := jerry_object_set_sz h global "thisComp" thisComp
  let (thisLayer, h) := jerry_object h
  let h := jerry_object_set_sz h global "thisLayer" thisLayer
  let (thisProperty, h) := jerry_object h
  let h := jerry_object_set_sz h global "thisProperty" thisProperty
  { s with heap := h, global := global, thisComp := thisComp, thisLayer := thisLayer,
           thisProperty := thisProperty }

/-- The first block of `LottieExpressions::evaluate` ("update global context
values"): the heap on which the expression is then run. -/
def updateGlobalContext [Zero N] (s : LottieExpressions N) (exp : LottieExpression N) :
    Heap N :=
  let h := jerry_object_set_native_ptr s.heap s.thisLayer (.layer exp.layer.addr)
  let h := _buildLayer h s.thisLayer exp.layer s.comp
  let h := jerry_object_set_native_ptr h s.thisProperty (.property exp.property.addr)
  let h := _buildProperty h s.global exp
  let h :=
    match exp.object with
    | .transform t => _buildTransform h s.global (some t)
    | .other _ => h
  h

/-- Method `LottieExpressions::evaluate`: the value found in the result slot
`$bm_rt` of the global object after the run, with the session after the run. -/
def evaluate [Zero N] (E : Engine N) (s : LottieExpressions N) (frameNo : N)
    (exp : LottieExpression N) : JValue N × LottieExpressions N :=
  let h := updateGlobalContext s exp
  let (h, eval) := E.eval exp.code h
  let log := if jerry_value_is_undefined eval then s.log ++ ["Expression error"] else s.log
  (jerry_object_get_sz h s.global "$bm_rt", { s with heap := h, log := log })

/-- Method `LottieExpressions::prepare`. -/
def prepare (s : LottieExpressions N) (comp : LottieComposition N) : LottieExpressions N :=
  if s.prepared then s
  else
    let s := { s with comp := comp }
    let s := { s with heap := jerry_init }
    let s := buildGlobal s
    let s := buildComp s
    let s := buildMath s
    { s with prepared := true }

/-- Method `LottieExpressions::update`. -/
def update (s : LottieExpressions N) (frameNo : N) (comp : LottieComposition N) :
    LottieExpressions N :=
  let time := jerry_number (comp.timeAtFrame frameNo)
  { s with heap := jerry_object_set_sz s.heap s.global "time" time }

end Session

/-! ## `tvgLottieExpressions.h`: the `result` overloads -/

/-- Modelled from the spec: the 2-D point `Point` of the public API. -/
structure Point (N : Type) where
  x : N
  y : N
  deriving DecidableEq, Repr

/-- Modelled from the spec: the colour triple `RGB24` of `tvgLottieModel.h`. -/
structure RGB24 where
  r : Int
  g : Int
  b : Int
  deriving DecidableEq, Repr

/-- Modelled from the spec: the path commands `PathCommand` of the public API. -/
inductive PathCommand where
  | Close | MoveTo | LineTo | CubicTo
  deriving DecidableEq, Repr

/-- What a `result` overload leaves behind: its return value, the destination
after the call and the session after the call. -/
structure Dispatched (T N : Type) where
  ret : Bool
  out : T
  self : LottieExpressions N

section Result

variable {N : Type}

/-- The overload `result<Property, NumType>(frameNo, NumType& out, exp)`.
`cast` is the conversion `(NumType)` and `property p f` the value of
`(*static_cast<Property*>(p))(f)`. In the number branch the source computes
`tmp` and drops it (the assignment to `out` is commented out under a FIXME). -/
def result {T : Type} [Zero N] (E : Engine N) (cast : N → T) (property : NativePtr → N → T)
    (s : LottieExpressions N) (frameNo : N) (out : T) (exp : LottieExpression N) :
    Dispatched T N :=
  let (bm_rt, s) := evaluate E s frameNo exp
  if jerry_value_is_number bm_rt then
    let tmp := cast (jerry_value_as_number bm_rt)
    ⟨true, out, s⟩
  else
    let prop := jerry_object_get_native_ptr s.heap bm_rt
    if prop ≠ .null then
      ⟨true, property prop frameNo, { s with calls := s.calls ++ [(prop, frameNo)] }⟩
    else
      ⟨true, out, { s with log := s.log ++ ["Failed dispatching Numberic Property!"] }⟩

/-- The overload `result<Property>(frameNo, Point& out, exp)`. -/
def resultPoint [Zero N] (E : Engine N) (property : NativePtr → N → Point N)
    (s : LottieExpressions N) (frameNo : N) (out : Point N) (exp : LottieExpression N) :
    Dispatched (Point N) N :=
  let (bm_rt, s) := evaluate E s frameNo exp
  let prop := jerry_object_get_native_ptr s.heap bm_rt
  if prop ≠ .null then
    ⟨true, property prop frameNo, { s with calls := s.calls ++ [(prop, frameNo)] }⟩
  else
    ⟨true, out, { s with log := s.log ++ ["Failed dispatching Object Property!"] }⟩

/-- The overload `result<Property>(frameNo, RGB24& out, exp)`. -/
def resultColor [Zero N] (E : Engine N) (property : NativePtr → N → RGB24)
    (s : LottieExpressions N) (frameNo : N) (out : RGB24) (exp : LottieExpression N) :
    Dispatched RGB24 N :=
  let (bm_rt, s) := evaluate E s frameNo exp
  let color := jerry_object_get_native_ptr s.heap bm_rt
  if color ≠ .null then
    ⟨true, property color frameNo, { s with calls := s.calls ++ [(color, frameNo)] }⟩
  else
    ⟨true, out, { s with log := s.log ++ ["Failed dispatching Color!"] }⟩

/-- The overload `result<Property>(frameNo, Fill* fill, exp)`. The handle is
called with the frame, the fill and the session, and may change both. -/
def resultFill {Fill : Type} [Zero N] (E : Engine N)
    (property : NativePtr → N → Fill → LottieExpressions N → Fill × LottieExpressions N)
    (s : LottieExpressions N) (frameNo : N) (fill : Fill) (exp : LottieExpression N) :
    Dispatched Fill N :=
  let (bm_rt, s) := evaluate E s frameNo exp
  let colorStop := jerry_object_get_native_ptr s.heap bm_rt
  if colorStop ≠ .null then
    let (fill, s) := property colorStop frameNo fill
      { s with calls := s.calls ++ [(colorStop, frameNo)] }
    ⟨true, fill, s⟩
  else
    ⟨true, fill, { s with log := s.log ++ ["Failed dispatching ColorStop!"] }⟩

/-- The overload `result<Property>(frameNo, Array<PathCommand>& cmds,
Array<Point>& pts, exp)`; the destination is the pair of both arrays. -/
def resultPath [Zero N] (E : Engine N)
    (property : NativePtr → N → List PathCommand × List (Point N) → LottieExpressions N →
      (List PathCommand × List (Point N)) × LottieExpressions N)
    (s : LottieExpressions N) (frameNo : N) (cmds : List PathCommand) (pts : List (Point N))
    (exp : LottieExpression N) : Dispatched (List PathCommand × List (Point N)) N :=
  let (bm_rt, s) := evaluate E s frameNo exp
  let pathSet := jerry_object_get_native_ptr s.heap bm_rt
  if pathSet ≠ .null then
    let (out, s) := property pathSet frameNo (cmds, pts)
      { s with calls := s.calls ++ [(pathSet, frameNo)] }
    ⟨true, out, s⟩
  else
    ⟨true, (cmds, pts), { s with log := s.log ++ ["Failed dispatching PathSet!"] }⟩

end Result

/-! ## A concrete scene and a concrete engine, for evaluating the code -/

section Scene

/-- A call of a function object from script: the math helpers are run from
their definitions above; the remaining handlers are not needed by the scripts
of `sceneEngine`. -/
def callExternal {N : Type} [Zero N] [Add N] [Sub N] [Mul N] [Div N]
    (toNumber : JValue N → JValue N) (h : Heap N) (fn : JValue N) (args : List (JValue N)) :
    JValue N :=
  match fn with
  | .object r =>
    match h[r]? with
    | some o =>
      match o.function with
      | some ._mul => _mul toNumber args
      | some ._sum => _sum toNumber args
      | some ._add => _add toNumber args
      | some ._sub => _sub toNumber args
      | some ._div => _div toNumber args
      | _ => .exception "TypeError"
    | none => .exception "TypeError"
  | _ => .exception "TypeError"

/-- The top-level statement `$bm_rt = v`: writes the result slot of the global
object; the completion value of the script is the assigned value. -/
def assignResult {N : Type} (h : Heap N) (v : JValue N) : Heap N × JValue N :=
  (jerry_object_set_sz h jerry_current_realm "$bm_rt" v, v)

/-- The number conversion of a value that is not a number; no script below
converts one. -/
def sceneToNumber : JValue Int → JValue Int := fun _ => .exception "TypeError"

/-- A transform whose five properties sit at the addresses 11 to 15. -/
def transformA : LottieTransform := ⟨11, 12, 13, 14, 15⟩

/-- Layer "A": has a transform and the parent "B". -/
def layerA : LottieLayer Int :=
  { addr := 1, w := 100, h := 50, id := 1, parent := some 2, inFrame := 0, outFrame := 150,
    startFrame := 0, hidden := false, name := "A", transform := some transformA,
    timeRemap := 16 }

/-- Layer "B": no transform and no parent. -/
def layerB : LottieLayer Int :=
  { addr := 2, w := 640, h := 480, id := 2, parent := none, inFrame := 0, outFrame := 150,
    startFrame := 0, hidden := true, name := "B", transform := none, timeRemap := 26 }

/-- A composition holding the two layers, 30 frames to the time unit. -/
def sceneComp : LottieComposition Int :=
  { addr := 100, w := 640, h := 480, name := "scene", rootChildrenCount := 2, duration := 5,
    frameCnt := 150, timeAtFrame := fun f => f / 30, frameAtTime := fun t => t * 30,
    layerByIndex := fun i => if i = 1 then some layerA else if i = 2 then some layerB else none,
    layerByName := fun n =>
      if n = "A" then some layerA else if n = "B" then some layerB else none,
    asset := fun _ => none }

/-- The native side of the scene: every composition pointer leads to the
scene composition; layer "A" has one shape group "Shape" (address 31), which
holds one path "Path" (path set at address 41). Numbers are integers already,
and the string conversion of a value that is not a string is never reached. A
name that does not fit its buffer is read as the empty string. -/
def sceneHost : Host Int where
  composition := fun _ => sceneComp
  layerContent := fun p name => if p = .layer 1 ∧ name = "Shape" then some 31 else none
  groupContent := fun p name => if p = .group 31 ∧ name = "Path" then some 41 else none
  toString := fun _ => .exception "TypeError"
  trunc := fun n => n
  cut := fun _ _ => ""

/-- The run of the program `$bm_rt = thisComp.layer(name).transform.position`:
`layerFn` is the function object the script finds under `thisComp.layer`, which
it calls with the name; the two member reads follow, and the value found is
written to the result slot of `global`. Reading a member of a value that is not
an object is a fault that ends the run. -/
def layerTransformPosition {N : Type} (H : Host N) (h : Heap N) (global layerFn : JValue N)
    (name : String) : Heap N × JValue N :=
  let (layer, h) := _layer H h layerFn [.string name]
  match layer with
  | .object _ =>
    let transform := jerry_object_get_sz h layer "transform"
    match transform with
    | .object _ =>
      let position := jerry_object_get_sz h transform "position"
      (jerry_object_set_sz h global "$bm_rt" position, position)
    | _ => (h, .exception "TypeError")
  | _ => (h, .exception "TypeError")

/-- A run from heap `h0` to heap `h1` keeps the bindings when it leaves every
property other than the result slot `$bm_rt`, every native handle and every
function handler as it found them. -/
def keepsBindings {N : Type} (h0 h1 : Heap N) : Prop :=
  (∀ (x : JValue N) (k : String), k ≠ "$bm_rt" →
    jerry_object_get_sz h1 x k = jerry_object_get_sz h0 x k) ∧
  (∀ x : JValue N, jerry_object_get_native_ptr h1 x = jerry_object_get_native_ptr h0 x) ∧
  (∀ x : JValue N, externalHandler h1 x = externalHandler h0 x)

/-- What the scripting engine does on the handful of program texts used below
(numbers are integers here). A text it cannot parse runs nothing and yields an
error value. -/
def sceneEngine : Engine Int where
  toNumber := sceneToNumber
  eval := fun code h =>
    let global : JValue Int := jerry_current_realm
    if code = "$bm_rt = 5" then assignResult h (.number 5)
    else if code = "$bm_rt = div(4)" then
      assignResult h (callExternal sceneToNumber h (jerry_object_get_sz h global "div")
        [.number 4])
    else if code = "$bm_rt = value" then assignResult h (jerry_object_get_sz h global "value")
    else if code = "$bm_rt = thisLayer" then
      assignResult h (jerry_object_get_sz h global "thisLayer")
    else if code = "$bm_rt = {}" then
      let (obj, h) := jerry_object h
      assignResult h obj
    else if code = "var x = 1" then (h, .undefined)
    else if code = "$bm_rt = thisComp.layer('A').transform.position" then
      layerTransformPosition sceneHost h global
        (jerry_object_get_sz h (jerry_object_get_sz h global "thisComp") "layer") "A"
    else (h, .exception "SyntaxError")

/-- The opacity property of layer "A" (address 15). -/
def opacityA : LottieProperty Int := ⟨15, 2, fun f => f⟩

/-- A shape property of layer "B" (address 27). -/
def shapeB : LottieProperty Int := ⟨27, 0, fun f => f⟩

/-- An expression attached to the opacity of the transform of layer "A". -/
def expressionA (code : String) : LottieExpression Int :=
  ⟨201, code, sceneComp, layerA, .transform transformA, opacityA⟩

/-- An expression attached to a property of a non-transform object of layer "B". -/
def expressionB (code : String) : LottieExpression Int :=
  ⟨202, code, sceneComp, layerB, .other 0, shapeB⟩

/-- A session object as constructed, before `prepare`. -/
def freshSession : LottieExpressions Int :=
  ⟨[], .undefined, .undefined, .undefined, .undefined, sceneComp, false, [], []⟩

/-- The session after `prepare` on the scene. -/
def sceneSession : LottieExpressions Int := prepare freshSession sceneComp

/-- The session after the expression `$bm_rt = 5` of layer "A" was evaluated
at frame 10. -/
def sceneSessionAfterA : LottieExpressions Int :=
  (evaluate sceneEngine sceneSession 10 (expressionA "$bm_rt = 5")).2

/-- The values a native handle yields when called as a numeric property: the
address it holds plus the frame (any handle can be called, whatever it points at). -/
def sceneProperty : NativePtr → Int → Int
  | .null, f => f
  | .composition a, f => a + f
  | .layer a, f => a + f
  | .property a, f => a + f
  | .expression a, f => a + f
  | .group a, f => a + f

end Scene


/-! ## Heap lemmas -/

section HeapLemmas

variable {N : Type}

theorem getProp_setProp (ps : List (String × JValue N)) (k k' : String) (v : JValue N) :
    getProp (setProp ps k v) k' = if k = k' then v else getProp ps k' := by
  induction ps with
  | nil =>
    by_cases hk : k = k' <;> simp [setProp, getProp, hk]
  | cons p t ih =>
    obtain ⟨k0, v0⟩ := p
    by_cases h0 : k0 = k
    · subst h0
      by_cases hk : k0 = k' <;> simp [setProp, getProp, hk]
    · by_cases hk : k = k'
      · subst hk
        simp [setProp, getProp, h0, ih]
      · have hk' : ¬ k' = k := fun e => hk e.symm
        by_cases h1 : k0 = k'
        · subst h1
          simp [setProp, getProp, hk', hk]
        · simp [setProp, getProp, h0, h1, hk, ih]

theorem lookup_set_sz (h : Heap N) (r r' : Nat) (k : String) (v : JValue N) :
    (jerry_object_set_sz h (.object r) k v)[r']? =
      if r = r' then (h[r']?).map (fun o => { o with props := setProp o.props k v })
      else h[r']? := by
  unfold jerry_object_set_sz
  cases hr : h[r]? with
  | none =>
    by_cases e : r = r'
    · subst e; simp [hr]
    · simp [hr, e]
  | some o =>
    have hlt : r < h.length := (List.getElem?_eq_some.mp hr).1
    by_cases e : r = r'
    · subst e; simp [hr, List.getElem?_set, hlt]
    · simp [hr, e, List.getElem?_set]

theorem lookup_set_native (h : Heap N) (r r' : Nat) (p : NativePtr) :
    (jerry_object_set_native_ptr h (.object r) p)[r']? =
      if r = r' then (h[r']?).map (fun o => { o with native := p }) else h[r']? := by
  unfold jerry_object_set_native_ptr
  cases hr : h[r]? with
  | none =>
    by_cases e : r = r'
    · subst e; simp [hr]
    · simp [hr, e]
  | some o =>
    have hlt : r < h.length := (List.getElem?_eq_some.mp hr).1
    by_cases e : r = r'
    · subst e; simp [hr, List.getElem?_set, hlt]
    · simp [hr, e, List.getElem?_set]

@[simp] theorem length_set_sz (h : Heap N) (o : JValue N) (k : String) (v : JValue N) :
    (jerry_object_set_sz h o k v).length = h.length := by
  unfold jerry_object_set_sz
  cases o <;> simp
  split <;> simp

@[simp] theorem length_set_native (h : Heap N) (o : JValue N) (p : NativePtr) :
    (jerry_object_set_native_ptr h o p).length = h.length := by
  unfold jerry_object_set_native_ptr
  cases o <;> simp
  split <;> simp

/-- Writing a key leaves every other key of every object as it was. -/
theorem get_sz_set_sz_of_ne (h : Heap N) (o x : JValue N) (k k' : String) (v : JValue N)
    (hk : k ≠ k') :
    jerry_object_get_sz (jerry_object_set_sz h o k v) x k' = jerry_object_get_sz h x k' := by
  cases x with
  | object r' =>
    cases o with
    | object r =>
      simp only [jerry_object_get_sz, lookup_set_sz]
      by_cases e : r = r'
      · subst e
        cases h[r]? <;> simp [getProp_setProp, hk]
      · simp [e]
    | _ => rfl
  | _ => rfl

/-- Reading back the key just written on a live object. -/
theorem get_sz_set_sz_same (h : Heap N) (r : Nat) (k : String) (v : JValue N)
    (hr : r < h.length) :
    jerry_object_get_sz (jerry_object_set_sz h (.object r) k v) (.object r) k = v := by
  simp only [jerry_object_get_sz, lookup_set_sz, List.getElem?_eq_getElem hr]
  simp [getProp_setProp]

/-- Writing a key of one object leaves the other objects as they were. -/
theorem get_sz_set_sz_of_ne_ref (h : Heap N) (r r' : Nat) (k k' : String) (v : JValue N)
    (hr : r ≠ r') :
    jerry_object_get_sz (jerry_object_set_sz h (.object r) k v) (.object r') k' =
      jerry_object_get_sz h (.object r') k' := by
  simp [jerry_object_get_sz, lookup_set_sz, hr]

/-- Attaching a native handle changes no property. -/
theorem get_sz_set_native (h : Heap N) (o x : JValue N) (p : NativePtr) (k : String) :
    jerry_object_get_sz (jerry_object_set_native_ptr h o p) x k = jerry_object_get_sz h x k := by
  cases x with
  | object r' =>
    cases o with
    | object r =>
      simp only [jerry_object_get_sz, lookup_set_native]
      by_cases e : r = r'
      · subst e
        cases h[r]? <;> simp
      · simp [e]
    | _ => rfl
  | _ => rfl

/-- A fresh cell without properties changes no reading of a property. -/
theorem get_sz_append_empty (h : Heap N) (f : Option NativeFn) (p : NativePtr) (x : JValue N)
    (k : String) :
    jerry_object_get_sz (h ++ [⟨f, p, []⟩]) x k = jerry_object_get_sz h x k := by
  cases x with
  | object r =>
    simp only [jerry_object_get_sz, List.getElem?_append]
    by_cases hr : r < h.length
    · simp [hr]
    · have hle : h.length ≤ r := Nat.le_of_not_lt hr
      simp only [hr, if_false, List.getElem?_eq_none hle]
      rcases Nat.eq_zero_or_pos (r - h.length) with h0 | h0
      · simp [h0, getProp]
      · have : ([⟨f, p, []⟩] : List (JObject N))[r - h.length]? = none :=
          List.getElem?_eq_none (by simp only [List.length_singleton]; omega)
        simp [this]
  | _ => rfl

/-- Appending cells leaves the live objects as they were. -/
theorem get_sz_append (h l : Heap N) (r : Nat) (k : String) (hr : r < h.length) :
    jerry_object_get_sz (h ++ l) (.object r) k = jerry_object_get_sz h (.object r) k := by
  simp [jerry_object_get_sz, List.getElem?_append_left hr]

theorem get_native_set_sz (h : Heap N) (o x : JValue N) (k : String) (v : JValue N) :
    jerry_object_get_native_ptr (jerry_object_set_sz h o k v) x =
      jerry_object_get_native_ptr h x := by
  cases x with
  | object r' =>
    cases o with
    | object r =>
      simp only [jerry_object_get_native_ptr, lookup_set_sz]
      by_cases e : r = r'
      · subst e
        cases h[r]? <;> simp
      · simp [e]
    | _ => rfl
  | _ => rfl

theorem get_native_set_native_same (h : Heap N) (r : Nat) (p : NativePtr) (hr : r < h.length) :
    jerry_object_get_native_ptr (jerry_object_set_native_ptr h (.object r) p) (.object r) = p := by
  simp [jerry_object_get_native_ptr, lookup_set_native, List.getElem?_eq_getElem hr]

theorem get_native_set_native_of_ne (h : Heap N) (r r' : Nat) (p : NativePtr) (hr : r ≠ r') :
    jerry_object_get_native_ptr (jerry_object_set_native_ptr h (.object r) p) (.object r') =
      jerry_object_get_native_ptr h (.object r') := by
  simp [jerry_object_get_native_ptr, lookup_set_native, hr]

theorem get_native_append (h l : Heap N) (r : Nat) (hr : r < h.length) :
    jerry_object_get_native_ptr (h ++ l) (.object r) =
      jerry_object_get_native_ptr h (.object r) := by
  simp [jerry_object_get_native_ptr, List.getElem?_append_left hr]

/-- The result slot `$bm_rt` is not among the keys `_buildTransform` writes. -/
theorem buildTransform_result_slot (h : Heap N) (ctx x : JValue N)
    (t : Option LottieTransform) :
    jerry_object_get_sz (_buildTransform h ctx t) x "$bm_rt" = jerry_object_get_sz h x "$bm_rt" := by
  cases t with
  | none => rfl
  | some t =>
    simp [_buildTransform, jerry_object, get_sz_set_sz_of_ne, get_sz_set_native,
      get_sz_append_empty]

/-- The result slot `$bm_rt` is not among the keys `_buildLayer` writes. -/
theorem buildLayer_result_slot (h : Heap N) (ctx x : JValue N) (layer : LottieLayer N)
    (comp : LottieComposition N) :
    jerry_object_get_sz (_buildLayer h ctx layer comp) x "$bm_rt" =
      jerry_object_get_sz h x "$bm_rt" := by
  simp [_buildLayer, jerry_object, get_sz_set_sz_of_ne, get_sz_set_native,
    get_sz_append_empty, buildTransform_result_slot, EXP_WIDTH, EXP_HEIGHT, EXP_NAME]

/-- The result slot `$bm_rt` is not among the keys `_buildProperty` writes. -/
theorem buildProperty_result_slot [Zero N] (h : Heap N) (ctx x : JValue N)
    (exp : LottieExpression N) :
    jerry_object_get_sz (_buildProperty h ctx exp) x "$bm_rt" =
      jerry_object_get_sz h x "$bm_rt" := by
  simp [_buildProperty, jerry_object, jerry_function_external, get_sz_set_sz_of_ne,
    get_sz_set_native, get_sz_append_empty, EXP_CONTENT]

/-- Rebuilding the bindings at the start of `evaluate` leaves the result slot
`$bm_rt` of every object as it was. -/
theorem updateGlobalContext_result_slot [Zero N] (s : LottieExpressions N)
    (exp : LottieExpression N) (x : JValue N) :
    jerry_object_get_sz (updateGlobalContext s exp) x "$bm_rt" =
      jerry_object_get_sz s.heap x "$bm_rt" := by
  unfold updateGlobalContext
  cases exp.object with
  | transform t =>
    simp [buildTransform_result_slot, buildProperty_result_slot, buildLayer_result_slot,
      get_sz_set_native]
  | other n =>
    simp [buildProperty_result_slot, buildLayer_result_slot, get_sz_set_native]

/-- A reference beyond the heap reads as an object without properties. -/
theorem get_sz_of_length_le (h : Heap N) (r : Nat) (k : String) (hr : h.length ≤ r) :
    jerry_object_get_sz h (.object r) k = .undefined := by
  simp [jerry_object_get_sz, List.getElem?_eq_none hr]

theorem length_buildTransform (h : Heap N) (ctx : JValue N) (t : Option LottieTransform) :
    (_buildTransform h ctx t).length = h.length + (if t.isSome then 6 else 0) := by
  cases t with
  | none => rfl
  | some t => simp [_buildTransform, jerry_object]

/-- The objects alive before `_buildTransform` keep their native handles. -/
theorem buildTransform_native (h : Heap N) (ctx : JValue N) (t : Option LottieTransform)
    (r : Nat) (hr : r < h.length) :
    jerry_object_get_native_ptr (_buildTransform h ctx t) (.object r) =
      jerry_object_get_native_ptr h (.object r) := by
  cases t with
  | none => rfl
  | some t =>
    simp (disch := first | omega | (simp only [length_set_sz, length_set_native,
      List.length_append, List.length_singleton]; omega)) only [_buildTransform, jerry_object,
      get_native_set_sz, get_native_set_native_of_ne, get_native_append]

/-- The only keys `_buildTransform` writes are `transform`, `position`, `scale`
and `rotation`. -/
theorem buildTransform_get_sz_of_ne (h : Heap N) (ctx x : JValue N)
    (t : Option LottieTransform) (k : String) (h1 : "transform" ≠ k) (h2 : "position" ≠ k)
    (h3 : "scale" ≠ k) (h4 : "rotation" ≠ k) :
    jerry_object_get_sz (_buildTransform h ctx t) x k = jerry_object_get_sz h x k := by
  cases t with
  | none => rfl
  | some t =>
    simp [_buildTransform, jerry_object, get_sz_set_sz_of_ne, get_sz_set_native,
      get_sz_append_empty, h1, h2, h3, h4]

/-- An object alive before `_buildTransform` other than the context keeps all
its properties. -/
theorem buildTransform_get_sz_other (h : Heap N) (r r' : Nat) (t : Option LottieTransform)
    (k : String) (hr : r' < h.length) (hne : r ≠ r') :
    jerry_object_get_sz (_buildTransform h (.object r) t) (.object r') k =
      jerry_object_get_sz h (.object r') k := by
  cases t with
  | none => rfl
  | some t =>
    simp (disch := first | omega | (simp only [length_set_sz, length_set_native,
      List.length_append, List.length_singleton]; omega)) only [_buildTransform, jerry_object,
      get_sz_set_sz_of_ne_ref, get_sz_set_native, get_sz_append_empty]

end HeapLemmas

/-! ## The value dispatcher (`result`) -/

section ResultTheorems

variable {N : Type}

/-- The session is handed back by `evaluate` with its trace of native calls untouched. -/
theorem evaluate_calls [Zero N] (E : Engine N) (s : LottieExpressions N) (f : N)
    (exp : LottieExpression N) : (evaluate E s f exp).2.calls = s.calls := rfl

/-- The number branch of the numeric overload, on every input: the number found
in the result slot is converted and dropped, the destination keeps its value. -/
theorem result_number_branch {T : Type} [Zero N] (E : Engine N) (cast : N → T)
    (property : NativePtr → N → T) (s : LottieExpressions N) (f : N) (out : T)
    (exp : LottieExpression N) (hnum : jerry_value_is_number (evaluate E s f exp).1 = true) :
    (result E cast property s f out exp).out = out := by
  simp [result, hnum]

/-- C1, evaluated on the code: the expression `$bm_rt = 5` leaves the literal
number 5 in the result slot, yet the numeric overload of `result` hands back the
destination with its old value 42 (the conversion of 5 would be 5). -/
theorem result_numeric_literal_dropped :
    (evaluate sceneEngine sceneSession 10 (expressionA "$bm_rt = 5")).1 = .number 5 ∧
    (result sceneEngine id sceneProperty sceneSession 10 42 (expressionA "$bm_rt = 5")).out
      = 42 ∧
    (id (5 : Int)) ≠ 42 := by
  decide

/-- C2: when the result slot holds a value that is not a number and carries the
native handle `P`, the numeric, point and colour overloads of `result` each set
the destination to the value of `P` at the frame passed to `result`, and the one
call they make through a native handle is the call of `P` with that frame. -/
theorem result_dispatches_bound_property [Zero N] (E : Engine N) (cast : N → T)
    (numeric : NativePtr → N → T) (point : NativePtr → N → Point N)
    (color : NativePtr → N → RGB24) (s : LottieExpressions N) (f : N)
    (exp : LottieExpression N) (outN : T) (outP : Point N) (outC : RGB24) (P : NativePtr)
    (hP : P ≠ .null)
    (hnum : jerry_value_is_number (evaluate E s f exp).1 = false)
    (hbound : jerry_object_get_native_ptr (evaluate E s f exp).2.heap (evaluate E s f exp).1
      = P) :
    ((result E cast numeric s f outN exp).out = numeric P f ∧
      (result E cast numeric s f outN exp).self.calls = s.calls ++ [(P, f)]) ∧
    ((resultPoint E point s f outP exp).out = point P f ∧
      (resultPoint E point s f outP exp).self.calls = s.calls ++ [(P, f)]) ∧
    ((resultColor E color s f outC exp).out = color P f ∧
      (resultColor E color s f outC exp).self.calls = s.calls ++ [(P, f)]) := by
  simp [result, resultPoint, resultColor, hnum, hbound, hP, evaluate_calls]

/-- C2 at the expression `$bm_rt = value` on the opacity of layer "A", frame 10:
the slot holds the object bound to the property at address 15. -/
theorem result_dispatches_bound_property_witness :
    ((result sceneEngine id sceneProperty sceneSession 10 42
        (expressionA "$bm_rt = value")).out = sceneProperty (.property 15) 10 ∧
      (result sceneEngine id sceneProperty sceneSession 10 42
        (expressionA "$bm_rt = value")).self.calls = sceneSession.calls ++ [(.property 15, 10)]) ∧
    ((resultPoint sceneEngine (fun p f => ⟨sceneProperty p f, 0⟩) sceneSession 10 ⟨0, 0⟩
        (expressionA "$bm_rt = value")).out = ⟨sceneProperty (.property 15) 10, 0⟩ ∧
      (resultPoint sceneEngine (fun p f => ⟨sceneProperty p f, 0⟩) sceneSession 10 ⟨0, 0⟩
        (expressionA "$bm_rt = value")).self.calls
        = sceneSession.calls ++ [(.property 15, 10)]) ∧
    ((resultColor sceneEngine (fun p f => ⟨sceneProperty p f, 0, 0⟩) sceneSession 10 ⟨0, 0, 0⟩
        (expressionA "$bm_rt = value")).out = ⟨sceneProperty (.property 15) 10, 0, 0⟩ ∧
      (resultColor sceneEngine (fun p f => ⟨sceneProperty p f, 0, 0⟩) sceneSession 10 ⟨0, 0, 0⟩
        (expressionA "$bm_rt = value")).self.calls
        = sceneSession.calls ++ [(.property 15, 10)]) :=
  result_dispatches_bound_property sceneEngine id sceneProperty
    (fun p f => ⟨sceneProperty p f, 0⟩) (fun p f => ⟨sceneProperty p f, 0, 0⟩) sceneSession 10
    (expressionA "$bm_rt = value") 42 ⟨0, 0⟩ ⟨0, 0, 0⟩ (.property 15) (by decide) (by decide)
    (by decide)

/-- A number never carries a native handle. -/
theorem get_native_number (h : Heap N) (n : N) :
    jerry_object_get_native_ptr h (.number n) = .null := rfl

/-- The value `undefined` never carries a native handle. -/
theorem get_native_undefined (h : Heap N) :
    jerry_object_get_native_ptr h (.undefined : JValue N) = .null := rfl

/-- C3: when the value in the result slot carries no native handle (as is the
case for a number, for `undefined` and for an object nothing was attached to),
the point, colour, gradient and path overloads of `result` hand back the
destination they were given, and so does the numeric overload when that value
is not a number either. -/
theorem result_dispatch_failure_keeps_destination {T Fill : Type} [Zero N] (E : Engine N)
    (cast : N → T) (numeric : NativePtr → N → T) (point : NativePtr → N → Point N)
    (color : NativePtr → N → RGB24)
    (stops : NativePtr → N → Fill → LottieExpressions N → Fill × LottieExpressions N)
    (pathSet : NativePtr → N → List PathCommand × List (Point N) → LottieExpressions N →
      (List PathCommand × List (Point N)) × LottieExpressions N)
    (s : LottieExpressions N) (f : N) (exp : LottieExpression N)
    (outN : T) (outP : Point N) (outC : RGB24) (fill : Fill) (cmds : List PathCommand)
    (pts : List (Point N))
    (hnull : jerry_object_get_native_ptr (evaluate E s f exp).2.heap (evaluate E s f exp).1
      = .null) :
    (jerry_value_is_number (evaluate E s f exp).1 = false →
      (result E cast numeric s f outN exp).out = outN) ∧
    (resultPoint E point s f outP exp).out = outP ∧
    (resultColor E color s f outC exp).out = outC ∧
    (resultFill E stops s f fill exp).out = fill ∧
    (resultPath E pathSet s f cmds pts exp).out = (cmds, pts) := by
  refine ⟨fun hnum => ?_, ?_, ?_, ?_, ?_⟩ <;>
    simp [result, resultPoint, resultColor, resultFill, resultPath, hnull, *]

/-- C3 at the expression `$bm_rt = div(4)`: the helper answers `undefined` and
every destination keeps the value it had. -/
theorem result_dispatch_failure_keeps_destination_witness :
    (evaluate sceneEngine sceneSession 10 (expressionA "$bm_rt = div(4)")).1 = .undefined ∧
    (result sceneEngine id sceneProperty sceneSession 10 42
      (expressionA "$bm_rt = div(4)")).out = 42 ∧
    ((resultPoint sceneEngine (fun p f => ⟨sceneProperty p f, 0⟩) sceneSession 10 ⟨3, 4⟩
      (expressionA "$bm_rt = div(4)")).out = ⟨3, 4⟩ ∧
    (resultColor sceneEngine (fun p f => ⟨sceneProperty p f, 0, 0⟩) sceneSession 10 ⟨1, 2, 3⟩
      (expressionA "$bm_rt = div(4)")).out = ⟨1, 2, 3⟩ ∧
    (resultFill sceneEngine (fun p f (fill : List Int) s => (sceneProperty p f :: fill, s))
      sceneSession 10 [7] (expressionA "$bm_rt = div(4)")).out = [7] ∧
    (resultPath sceneEngine (fun p f out s => (([], []), s)) sceneSession 10 [.MoveTo]
      [⟨1, 1⟩] (expressionA "$bm_rt = div(4)")).out = ([.MoveTo], [⟨1, 1⟩])) :=
  have dispatch :=
    result_dispatch_failure_keeps_destination sceneEngine id sceneProperty
      (fun p f => ⟨sceneProperty p f, 0⟩) (fun p f => ⟨sceneProperty p f, 0, 0⟩)
      (fun p f (fill : List Int) s => (sceneProperty p f :: fill, s))
      (fun p f out s => (([], []), s)) sceneSession 10 (expressionA "$bm_rt = div(4)")
      42 ⟨3, 4⟩ ⟨1, 2, 3⟩ [7] [.MoveTo] [⟨1, 1⟩] (by decide)
  ⟨by decide, dispatch.1 (by decide), dispatch.2⟩

/-- C4, refuted on the code: after the expression `$bm_rt = thisLayer` the
result slot holds the layer introspection object, whose native handle points at
layer "A" and not at a property; the point overload of `result` nevertheless
calls that handle with the frame and overwrites the destination. -/
theorem result_type_mismatch_is_dispatched :
    jerry_object_get_native_ptr
      (evaluate sceneEngine sceneSession 10 (expressionA "$bm_rt = thisLayer")).2.heap
      (evaluate sceneEngine sceneSession 10 (expressionA "$bm_rt = thisLayer")).1
      = .layer layerA.addr ∧
    (resultPoint sceneEngine (fun p f => ⟨sceneProperty p f, 0⟩) sceneSession 10 ⟨3, 4⟩
      (expressionA "$bm_rt = thisLayer")).self.calls = [(.layer layerA.addr, 10)] ∧
    (resultPoint sceneEngine (fun p f => ⟨sceneProperty p f, 0⟩) sceneSession 10 ⟨3, 4⟩
      (expressionA "$bm_rt = thisLayer")).out = ⟨11, 0⟩ ∧
    ¬ ((resultPoint sceneEngine (fun p f => ⟨sceneProperty p f, 0⟩) sceneSession 10 ⟨3, 4⟩
        (expressionA "$bm_rt = thisLayer")).self.calls = sceneSession.calls ∧
      (resultPoint sceneEngine (fun p f => ⟨sceneProperty p f, 0⟩) sceneSession 10 ⟨3, 4⟩
        (expressionA "$bm_rt = thisLayer")).out = ⟨3, 4⟩) := by
  decide

/-- C4 as amended: the overloads do not look at what a handle points at. When
the result slot holds a value with a non-null native handle `P`, whatever entity
`P` refers to, the point and colour overloads call `P` with the frame and store
what the call yields, and the gradient and path overloads call `P` with the
frame, the destination and the session and keep what the call leaves. -/
theorem result_calls_any_bound_handle {Fill : Type} [Zero N] (E : Engine N)
    (point : NativePtr → N → Point N) (color : NativePtr → N → RGB24)
    (stops : NativePtr → N → Fill → LottieExpressions N → Fill × LottieExpressions N)
    (pathSet : NativePtr → N → List PathCommand × List (Point N) → LottieExpressions N →
      (List PathCommand × List (Point N)) × LottieExpressions N)
    (s : LottieExpressions N) (f : N) (exp : LottieExpression N)
    (outP : Point N) (outC : RGB24) (fill : Fill) (cmds : List PathCommand)
    (pts : List (Point N)) (P : NativePtr) (hP : P ≠ .null)
    (hbound : jerry_object_get_native_ptr (evaluate E s f exp).2.heap (evaluate E s f exp).1
      = P) :
    ((resultPoint E point s f outP exp).out = point P f ∧
      (resultPoint E point s f outP exp).self.calls = s.calls ++ [(P, f)]) ∧
    ((resultColor E color s f outC exp).out = color P f ∧
      (resultColor E color s f outC exp).self.calls = s.calls ++ [(P, f)]) ∧
    ((resultFill E stops s f fill exp).out =
        (stops P f fill { (evaluate E s f exp).2 with calls := s.calls ++ [(P, f)] }).1 ∧
      (resultFill E stops s f fill exp).self =
        (stops P f fill { (evaluate E s f exp).2 with calls := s.calls ++ [(P, f)] }).2) ∧
    ((resultPath E pathSet s f cmds pts exp).out =
        (pathSet P f (cmds, pts)
          { (evaluate E s f exp).2 with calls := s.calls ++ [(P, f)] }).1 ∧
      (resultPath E pathSet s f cmds pts exp).self =
        (pathSet P f (cmds, pts)
          { (evaluate E s f exp).2 with calls := s.calls ++ [(P, f)] }).2) := by
  simp [resultPoint, resultColor, resultFill, resultPath, hbound, hP, evaluate_calls]

/-- C4 as amended, at the expression `$bm_rt = thisLayer`: the handle of layer
"A" is called by all four overloads. -/
theorem result_calls_any_bound_handle_witness :
    ((resultPoint sceneEngine (fun p f => ⟨sceneProperty p f, 1⟩) sceneSession 10 ⟨3, 4⟩
        (expressionA "$bm_rt = thisLayer")).out = ⟨sceneProperty (.layer 1) 10, 1⟩ ∧
      (resultPoint sceneEngine (fun p f => ⟨sceneProperty p f, 1⟩) sceneSession 10 ⟨3, 4⟩
        (expressionA "$bm_rt = thisLayer")).self.calls
        = sceneSession.calls ++ [(.layer 1, 10)]) ∧
    ((resultColor sceneEngine (fun p f => ⟨sceneProperty p f, 0, 0⟩) sceneSession 10 ⟨1, 2, 3⟩
        (expressionA "$bm_rt = thisLayer")).out = ⟨sceneProperty (.layer 1) 10, 0, 0⟩ ∧
      (resultColor sceneEngine (fun p f => ⟨sceneProperty p f, 0, 0⟩) sceneSession 10 ⟨1, 2, 3⟩
        (expressionA "$bm_rt = thisLayer")).self.calls
        = sceneSession.calls ++ [(.layer 1, 10)]) ∧
    ((resultFill sceneEngine (fun p f (fill : List Int) s => (sceneProperty p f :: fill, s))
        sceneSession 10 [7] (expressionA "$bm_rt = thisLayer")).out = [11, 7] ∧
      (resultFill sceneEngine (fun p f (fill : List Int) s => (sceneProperty p f :: fill, s))
        sceneSession 10 [7] (expressionA "$bm_rt = thisLayer")).self.calls
        = [(.layer 1, 10)]) ∧
    ((resultPath sceneEngine (fun p f out s => ((.Close :: out.1, ⟨sceneProperty p f, 0⟩ :: out.2), s))
        sceneSession 10 [.MoveTo] [⟨1, 1⟩] (expressionA "$bm_rt = thisLayer")).out
        = ([.Close, .MoveTo], [⟨11, 0⟩, ⟨1, 1⟩]) ∧
      (resultPath sceneEngine (fun p f out s => ((.Close :: out.1, ⟨sceneProperty p f, 0⟩ :: out.2), s))
        sceneSession 10 [.MoveTo] [⟨1, 1⟩] (expressionA "$bm_rt = thisLayer")).self.calls
        = [(.layer 1, 10)]) := by
  have called :=
    result_calls_any_bound_handle sceneEngine (fun p f => ⟨sceneProperty p f, 1⟩)
      (fun p f => ⟨sceneProperty p f, 0, 0⟩)
      (fun p f (fill : List Int) s => (sceneProperty p f :: fill, s))
      (fun p f out s => ((.Close :: out.1, ⟨sceneProperty p f, 0⟩ :: out.2), s))
      sceneSession 10 (expressionA "$bm_rt = thisLayer") ⟨3, 4⟩ ⟨1, 2, 3⟩ [7] [.MoveTo]
      [⟨1, 1⟩] (.layer 1) (by decide) (by decide)
  refine ⟨called.1, called.2.1, ⟨?_, ?_⟩, ⟨?_, ?_⟩⟩
  · rw [called.2.2.1.1]
    decide
  · rw [called.2.2.1.2]
    decide
  · rw [called.2.2.2.1]
    decide
  · rw [called.2.2.2.2]
    decide

end ResultTheorems

/-! ## The math helpers -/

section MathTheorems

variable {N : Type} [Zero N] [Add N] [Sub N] [Mul N] [Div N]

/-- C7: called with an argument list whose length is not 2, each of `_sum`,
`_add`, `_sub`, `_mul` and `_div` returns `undefined`, which is not an error
value. -/
theorem math_helpers_wrong_arity (toNumber : JValue N → JValue N) (args : List (JValue N))
    (harity : args.length ≠ 2) :
    (_sum toNumber args = .undefined ∧ _add toNumber args = .undefined ∧ _sub toNumber args = .undefined ∧
      _mul toNumber args = .undefined ∧ _div toNumber args = .undefined) ∧
    (jerry_value_is_exception (_sum toNumber args) = false ∧
      jerry_value_is_exception (_add toNumber args) = false ∧
      jerry_value_is_exception (_sub toNumber args) = false ∧
      jerry_value_is_exception (_mul toNumber args) = false ∧
      jerry_value_is_exception (_div toNumber args) = false) := by
  simp [_sum, _add, _sub, _mul, _div, harity, jerry_undefined, jerry_value_is_exception]

/-- C7 at a list of three numbers. -/
theorem math_helpers_wrong_arity_witness :
    (_sum sceneToNumber [.number 1, .number 2, .number 3] = .undefined ∧
      _add sceneToNumber [.number 1, .number 2, .number 3] = .undefined ∧
      _sub sceneToNumber [.number 1, .number 2, .number 3] = .undefined ∧
      _mul sceneToNumber [.number 1, .number 2, .number 3] = .undefined ∧
      _div sceneToNumber [.number 1, .number 2, .number 3] = .undefined) ∧
    (jerry_value_is_exception (_sum sceneToNumber [.number 1, .number 2, .number 3]) = false ∧
      jerry_value_is_exception (_add sceneToNumber [.number 1, .number 2, .number 3]) = false ∧
      jerry_value_is_exception (_sub sceneToNumber [.number 1, .number 2, .number 3]) = false ∧
      jerry_value_is_exception (_mul sceneToNumber [.number 1, .number 2, .number 3]) = false ∧
      jerry_value_is_exception (_div sceneToNumber [.number 1, .number 2, .number 3]) = false) :=
  math_helpers_wrong_arity sceneToNumber [.number 1, .number 2, .number 3] (by decide)

/-- C8: on two numbers `a` and `b`, `_sum` and `_add` return the number `a + b`,
`_sub` returns `a - b`, `_mul` returns `a * b` and `_div` returns `a / b`, the
operations being those of the engine's numbers; `_sum` and `_add` return the
same value on every argument list. -/
theorem math_helpers_on_numbers (toNumber : JValue N → JValue N) (a b : N) :
    _sum toNumber [.number a, .number b] = .number (a + b) ∧
    _add toNumber [.number a, .number b] = .number (a + b) ∧
    _sub toNumber [.number a, .number b] = .number (a - b) ∧
    _mul toNumber [.number a, .number b] = .number (a * b) ∧
    _div toNumber [.number a, .number b] = .number (a / b) ∧
    ∀ args : List (JValue N), _sum toNumber args = _add toNumber args :=
  ⟨rfl, rfl, rfl, rfl, rfl, fun _ => rfl⟩

end MathTheorems

/-! ## `evaluate` -/

section EvaluateTheorems

variable {N : Type}

/-- C5, refuted on the code: the session already holds the number 5 in the
result slot; the next expression does not parse, the engine answers with an
error value, and `evaluate` writes no log line and returns the number 5 left
by the earlier call, not `undefined`. -/
theorem evaluate_fault_returns_stale_slot :
    jerry_value_is_exception
      (sceneEngine.eval "$bm_rt = " (updateGlobalContext sceneSessionAfterA
        (expressionB "$bm_rt = "))).2 = true ∧
    (evaluate sceneEngine sceneSessionAfterA 11 (expressionB "$bm_rt = ")).1 = .number 5 ∧
    (evaluate sceneEngine sceneSessionAfterA 11 (expressionB "$bm_rt = ")).1 ≠ .undefined ∧
    (evaluate sceneEngine sceneSessionAfterA 11 (expressionB "$bm_rt = ")).2.log
      = sceneSessionAfterA.log := by
  decide

/-- C5 as amended: when the engine reports a fault on the expression and the
faulted run has not written the result slot, `evaluate` returns the value the
result slot `$bm_rt` of the global object held when `evaluate` was called
(`undefined` if nothing was there, otherwise the value left by an earlier
call); the error value of the engine is not handed on. -/
theorem evaluate_fault_returns_prior_slot [Zero N] (E : Engine N) (s : LottieExpressions N)
    (f : N) (exp : LottieExpression N) (h1 : Heap N) (e : String)
    (hfault : E.eval exp.code (updateGlobalContext s exp) = (h1, .exception e))
    (hslot : jerry_object_get_sz h1 s.global "$bm_rt" =
      jerry_object_get_sz (updateGlobalContext s exp) s.global "$bm_rt") :
    (evaluate E s f exp).1 = jerry_object_get_sz s.heap s.global "$bm_rt" := by
  simp [evaluate, hfault, hslot, updateGlobalContext_result_slot]

/-- C5 as amended, at the expression that does not parse, evaluated after the
expression `$bm_rt = 5`. -/
theorem evaluate_fault_returns_prior_slot_witness :
    (evaluate sceneEngine sceneSessionAfterA 11 (expressionB "$bm_rt = ")).1 =
      jerry_object_get_sz sceneSessionAfterA.heap sceneSessionAfterA.global "$bm_rt" :=
  evaluate_fault_returns_prior_slot sceneEngine sceneSessionAfterA 11
    (expressionB "$bm_rt = ") (updateGlobalContext sceneSessionAfterA (expressionB "$bm_rt = "))
    "SyntaxError" (by decide) (by decide)

/-- C6, evaluated on the code: `evaluate` runs first for an expression on the
transform of layer "A", then for an expression on a non-transform object of
layer "B", which has no transform. After the second call `thisLayer` is bound to
layer "B", but `thisLayer.transform.position` and the global
`transform.position` are still the objects bound to the position property of
the transform of layer "A"; neither existed before the first call. -/
theorem evaluate_leaks_transform_of_previous_layer :
    layerB.transform = none ∧
    jerry_object_get_sz sceneSession.heap sceneSession.thisLayer "transform" = .undefined ∧
    jerry_object_get_sz sceneSession.heap sceneSession.global "transform" = .undefined ∧
    jerry_object_get_native_ptr
      (evaluate sceneEngine sceneSessionAfterA 11 (expressionB "var x = 1")).2.heap
      (evaluate sceneEngine sceneSessionAfterA 11 (expressionB "var x = 1")).2.thisLayer
      = .layer layerB.addr ∧
    jerry_object_get_native_ptr
      (evaluate sceneEngine sceneSessionAfterA 11 (expressionB "var x = 1")).2.heap
      (jerry_object_get_sz
        (evaluate sceneEngine sceneSessionAfterA 11 (expressionB "var x = 1")).2.heap
        (jerry_object_get_sz
          (evaluate sceneEngine sceneSessionAfterA 11 (expressionB "var x = 1")).2.heap
          (evaluate sceneEngine sceneSessionAfterA 11 (expressionB "var x = 1")).2.thisLayer
          "transform")
        "position")
      = .property transformA.position ∧
    jerry_object_get_native_ptr
      (evaluate sceneEngine sceneSessionAfterA 11 (expressionB "var x = 1")).2.heap
      (jerry_object_get_sz
        (evaluate sceneEngine sceneSessionAfterA 11 (expressionB "var x = 1")).2.heap
        (jerry_object_get_sz
          (evaluate sceneEngine sceneSessionAfterA 11 (expressionB "var x = 1")).2.heap
          (evaluate sceneEngine sceneSessionAfterA 11 (expressionB "var x = 1")).2.global
          "transform")
        "position")
      = .property transformA.position := by
  decide

end EvaluateTheorems

/-! ## The layer context builder -/

section LayerTheorems

variable {N : Type}

/-- C10, refuted on the code: layer "B" has no parent, yet the `parent` field
`_buildLayer` writes for it is an object, not `undefined`. -/
theorem buildLayer_parent_of_orphan_is_object :
    layerB.parent = none ∧
    jerry_object_get_sz (_buildLayer sceneSession.heap sceneSession.thisLayer layerB sceneComp)
      sceneSession.thisLayer "parent" = .object 16 ∧
    jerry_object_get_sz (_buildLayer sceneSession.heap sceneSession.thisLayer layerB sceneComp)
      sceneSession.thisLayer "parent" ≠ .undefined := by
  decide

/-- C10 as amended: for every layer, `_buildLayer` on a live context object sets
`hasParent` to true exactly when the layer has a parent, and sets `parent` to a
newly made object without properties whose native handle is the layer's parent
pointer: the parent layer when there is one, and null (not `undefined` in place
of the object) when there is none. -/
theorem buildLayer_parent_fields (h : Heap N) (r : Nat) (layer : LottieLayer N)
    (comp : LottieComposition N) (hr : r < h.length) :
    jerry_object_get_sz (_buildLayer h (.object r) layer comp) (.object r) "hasParent"
      = .boolean layer.parent.isSome ∧
    jerry_object_get_sz (_buildLayer h (.object r) layer comp) (.object r) "parent"
      = .object h.length ∧
    jerry_object_get_native_ptr (_buildLayer h (.object r) layer comp) (.object h.length)
      = layerPtr layer.parent ∧
    (∀ k : String,
      jerry_object_get_sz (_buildLayer h (.object r) layer comp) (.object h.length) k
        = .undefined) := by
  refine ⟨?_, ?_, ?_, fun k => ?_⟩
  · simp (disch := first | omega | decide | (simp only [length_set_sz, length_set_native,
      List.length_append, List.length_singleton]; omega)) only [_buildLayer, jerry_object,
      get_sz_set_sz_of_ne, get_sz_set_native, get_sz_append_empty, get_sz_set_sz_same,
      buildTransform_get_sz_of_ne, EXP_NAME, EXP_WIDTH, EXP_HEIGHT, jerry_boolean]
    cases layer.parent <;> simp [layerPtr]
  · simp (disch := first | omega | decide | (simp only [length_set_sz, length_set_native,
      List.length_append, List.length_singleton]; omega)) only [_buildLayer, jerry_object,
      get_sz_set_sz_of_ne, get_sz_set_native, get_sz_append_empty, get_sz_set_sz_same,
      buildTransform_get_sz_of_ne, EXP_NAME, EXP_WIDTH, EXP_HEIGHT, length_set_sz]
  · simp (disch := first | omega | decide | (simp only [length_set_sz, length_set_native,
      List.length_append, List.length_singleton, length_buildTransform]; omega)) only
      [_buildLayer, jerry_object, get_native_set_sz, get_native_set_native_of_ne,
      get_native_append, buildTransform_native, get_native_set_native_same, length_set_sz,
      length_set_native, length_buildTransform, List.length_append, List.length_singleton]
  · simp (disch := first | omega | decide | (simp only [length_set_sz, length_set_native,
      List.length_append, List.length_singleton, length_buildTransform]; omega)) only
      [_buildLayer, jerry_object, get_sz_set_sz_of_ne_ref, get_sz_set_native,
      get_sz_append_empty, buildTransform_get_sz_other, get_sz_of_length_le, length_set_sz,
      length_set_native, length_buildTransform, List.length_append, List.length_singleton]

/-- C10 as amended, at layer "A" (whose parent is layer "B") built into the
`thisLayer` object of the prepared session. -/
theorem buildLayer_parent_fields_witness :
    jerry_object_get_sz (_buildLayer sceneSession.heap (.object 3) layerA sceneComp)
      (.object 3) "hasParent" = .boolean true ∧
    jerry_object_get_sz (_buildLayer sceneSession.heap (.object 3) layerA sceneComp)
      (.object 3) "parent" = .object 16 ∧
    jerry_object_get_native_ptr (_buildLayer sceneSession.heap (.object 3) layerA sceneComp)
      (.object 16) = .layer layerB.addr ∧
    jerry_object_get_sz (_buildLayer sceneSession.heap (.object 3) layerA sceneComp)
      (.object 16) "width" = .undefined :=
  have built := buildLayer_parent_fields sceneSession.heap 3 layerA sceneComp (by decide)
  ⟨built.1, built.2.1, built.2.2.1, built.2.2.2 "width"⟩

end LayerTheorems

/-! ## `prepare` -/

section PrepareTheorems

variable {N : Type}

/-- C9, evaluated on the code: after `prepare` on a session that was not yet
prepared, the global object binds `sum`, `add`, `sub` and `div` to their
helpers but has no binding `mul`: the multiplication helper is bound under
`$mul`. The second set of names is `$bm_mul`, `bm_sum`, `bm_add`, `bm_sub` and
`bm_div`, so the five aliases have no prefix in common: neither `bm_mul` nor
`$bm_sum` is bound. -/
theorem prepare_math_bindings (s : LottieExpressions N) (comp : LottieComposition N)
    (hfresh : s.prepared = false) :
    (externalHandler (prepare s comp).heap
        (jerry_object_get_sz (prepare s comp).heap (prepare s comp).global "sum") = some ._sum ∧
      externalHandler (prepare s comp).heap
        (jerry_object_get_sz (prepare s comp).heap (prepare s comp).global "add") = some ._add ∧
      externalHandler (prepare s comp).heap
        (jerry_object_get_sz (prepare s comp).heap (prepare s comp).global "sub") = some ._sub ∧
      externalHandler (prepare s comp).heap
        (jerry_object_get_sz (prepare s comp).heap (prepare s comp).global "div") = some ._div) ∧
    (jerry_object_get_sz (prepare s comp).heap (prepare s comp).global "mul" = .undefined ∧
      externalHandler (prepare s comp).heap
        (jerry_object_get_sz (prepare s comp).heap (prepare s comp).global "$mul")
        = some ._mul) ∧
    (externalHandler (prepare s comp).heap
        (jerry_object_get_sz (prepare s comp).heap (prepare s comp).global "$bm_mul")
        = some ._mul ∧
      externalHandler (prepare s comp).heap
        (jerry_object_get_sz (prepare s comp).heap (prepare s comp).global "bm_sum")
        = some ._sum ∧
      externalHandler (prepare s comp).heap
        (jerry_object_get_sz (prepare s comp).heap (prepare s comp).global "bm_add")
        = some ._add ∧
      externalHandler (prepare s comp).heap
        (jerry_object_get_sz (prepare s comp).heap (prepare s comp).global "bm_sub")
        = some ._sub ∧
      externalHandler (prepare s comp).heap
        (jerry_object_get_sz (prepare s comp).heap (prepare s comp).global "bm_div")
        = some ._div) ∧
    (jerry_object_get_sz (prepare s comp).heap (prepare s comp).global "bm_mul" = .undefined ∧
      jerry_object_get_sz (prepare s comp).heap (prepare s comp).global "$bm_sum"
        = .undefined) := by
  simp [prepare, hfresh, buildMath, buildComp, buildGlobal, jerry_init, jerry_current_realm,
    jerry_function_external, jerry_object, jerry_object_set_sz, jerry_object_set_native_ptr,
    jerry_object_get_sz, externalHandler, setProp, getProp, jerry_number, jerry_string,
    EXP_WIDTH, EXP_HEIGHT, EXP_NAME]

/-- C9 on the scene: the bindings `prepare` leaves in a new session. -/
theorem prepare_math_bindings_witness :
    (externalHandler sceneSession.heap
        (jerry_object_get_sz sceneSession.heap sceneSession.global "sum") = some ._sum ∧
      externalHandler sceneSession.heap
        (jerry_object_get_sz sceneSession.heap sceneSession.global "add") = some ._add ∧
      externalHandler sceneSession.heap
        (jerry_object_get_sz sceneSession.heap sceneSession.global "sub") = some ._sub ∧
      externalHandler sceneSession.heap
        (jerry_object_get_sz sceneSession.heap sceneSession.global "div") = some ._div) ∧
    (jerry_object_get_sz sceneSession.heap sceneSession.global "mul" = .undefined ∧
      externalHandler sceneSession.heap
        (jerry_object_get_sz sceneSession.heap sceneSession.global "$mul") = some ._mul) ∧
    (externalHandler sceneSession.heap
        (jerry_object_get_sz sceneSession.heap sceneSession.global "$bm_mul") = some ._mul ∧
      externalHandler sceneSession.heap
        (jerry_object_get_sz sceneSession.heap sceneSession.global "bm_sum") = some ._sum ∧
      externalHandler sceneSession.heap
        (jerry_object_get_sz sceneSession.heap sceneSession.global "bm_add") = some ._add ∧
      externalHandler sceneSession.heap
        (jerry_object_get_sz sceneSession.heap sceneSession.global "bm_sub") = some ._sub ∧
      externalHandler sceneSession.heap
        (jerry_object_get_sz sceneSession.heap sceneSession.global "bm_div") = some ._div) ∧
    (jerry_object_get_sz sceneSession.heap sceneSession.global "bm_mul" = .undefined ∧
      jerry_object_get_sz sceneSession.heap sceneSession.global "$bm_sum" = .undefined) :=
  prepare_math_bindings freshSession sceneComp rfl

end PrepareTheorems

/-! ## Session lifecycle: `prepare`, `update`, and the return value of `result` -/

section LifecycleTheorems

variable {N : Type}

/-- C16: on a session that is already prepared, `prepare` with any composition
(the one of the first `prepare` or another one) returns the session as it was:
heap (the engine instance and all bindings), `global`, `thisComp`, `thisLayer`,
`thisProperty`, the stored composition and the flag `prepared`, which stays
true. -/
theorem prepare_idempotent (s : LottieExpressions N) (c2 : LottieComposition N)
    (hprepared : s.prepared = true) :
    prepare s c2 = s ∧ (prepare s c2).prepared = true := by
  simp [prepare, hprepared]

/-- C16 on the scene: the session prepared on the scene and used for one
`evaluate` is handed a composition of another address and size. -/
theorem prepare_idempotent_witness :
    prepare sceneSessionAfterA { sceneComp with addr := 300, w := 1, h := 1 }
      = sceneSessionAfterA ∧
    (prepare sceneSessionAfterA { sceneComp with addr := 300, w := 1, h := 1 }).prepared
      = true :=
  prepare_idempotent sceneSessionAfterA { sceneComp with addr := 300, w := 1, h := 1 }
    (by decide)

/-- C17: when the `global` of the session is a live object (as it is from
`prepare` on), `update` with frame `f` and composition `c` leaves the number
`c.timeAtFrame f` under the key `time` of the global object, every other key of
the global object and every other object of the heap as they were, and no other
field of the session changes. -/
theorem update_sets_time (s : LottieExpressions N) (f : N) (c : LottieComposition N)
    (g : Nat) (hglobal : s.global = .object g) (hlive : g < s.heap.length) :
    jerry_object_get_sz (update s f c).heap (update s f c).global "time"
      = .number (c.timeAtFrame f) ∧
    (∀ k : String, k ≠ "time" →
      jerry_object_get_sz (update s f c).heap (update s f c).global k
        = jerry_object_get_sz s.heap s.global k) ∧
    (∀ r : Nat, r ≠ g → (update s f c).heap[r]? = s.heap[r]?) ∧
    (update s f c).global = s.global ∧ (update s f c).thisComp = s.thisComp ∧
    (update s f c).thisLayer = s.thisLayer ∧ (update s f c).thisProperty = s.thisProperty ∧
    (update s f c).prepared = s.prepared := by
  refine ⟨?_, fun k hk => ?_, fun r hr => ?_, rfl, rfl, rfl, rfl, rfl⟩
  · simp [update, hglobal, jerry_number, get_sz_set_sz_same _ _ _ _ hlive]
  · simp [update, hglobal, get_sz_set_sz_of_ne _ _ _ _ _ _ (Ne.symm hk)]
  · simp [update, hglobal, lookup_set_sz, Ne.symm hr]

/-- C17 on the scene: frame 60 of a composition running 30 frames to the time
unit. -/
theorem update_sets_time_witness :
    jerry_object_get_sz (update sceneSession 60 sceneComp).heap
      (update sceneSession 60 sceneComp).global "time" = .number 2 ∧
    jerry_object_get_sz (update sceneSession 60 sceneComp).heap
      (update sceneSession 60 sceneComp).global "thisComp"
      = jerry_object_get_sz sceneSession.heap sceneSession.global "thisComp" ∧
    (update sceneSession 60 sceneComp).heap[2]? = sceneSession.heap[2]? :=
  have updated := update_sets_time sceneSession 60 sceneComp 0 (by decide) (by decide)
  ⟨updated.1, updated.2.1 "thisComp" (by decide), updated.2.2.1 2 (by decide)⟩

/-- C18: with expression support compiled in, each of the five overloads of
`result` returns true on every input, whether it dispatched a value or logged a
dispatch failure. -/
theorem result_always_true {T Fill : Type} [Zero N] (E : Engine N)
    (cast : N → T) (numeric : NativePtr → N → T) (point : NativePtr → N → Point N)
    (color : NativePtr → N → RGB24)
    (stops : NativePtr → N → Fill → LottieExpressions N → Fill × LottieExpressions N)
    (pathSet : NativePtr → N → List PathCommand × List (Point N) → LottieExpressions N →
      (List PathCommand × List (Point N)) × LottieExpressions N)
    (s : LottieExpressions N) (f : N) (exp : LottieExpression N)
    (outN : T) (outP : Point N) (outC : RGB24) (fill : Fill) (cmds : List PathCommand)
    (pts : List (Point N)) :
    (result E cast numeric s f outN exp).ret = true ∧
    (resultPoint E point s f outP exp).ret = true ∧
    (resultColor E color s f outC exp).ret = true ∧
    (resultFill E stops s f fill exp).ret = true ∧
    (resultPath E pathSet s f cmds pts exp).ret = true := by
  refine ⟨?_, ?_, ?_, ?_, ?_⟩
  · simp only [result]
    split <;> [rfl; (split <;> rfl)]
  · simp only [resultPoint]
    split <;> rfl
  · simp only [resultColor]
    split <;> rfl
  · simp only [resultFill]
    split <;> rfl
  · simp only [resultPath]
    split <;> rfl

end LifecycleTheorems

/-! ## The objects built for a layer -/

section LayerObjectTheorems

variable {N : Type}

/-- The handle behind `transform.position` of the object `_buildLayer` fills is
the position property of the transform. -/
theorem buildLayer_position_handle (h : Heap N) (r : Nat) (layer : LottieLayer N)
    (comp : LottieComposition N) (t : LottieTransform) (hr : r < h.length)
    (ht : layer.transform = some t) :
    jerry_object_get_native_ptr (_buildLayer h (.object r) layer comp)
      (jerry_object_get_sz (_buildLayer h (.object r) layer comp)
        (jerry_object_get_sz (_buildLayer h (.object r) layer comp) (.object r) "transform")
        "position") = .property t.position := by
  simp (disch := first | omega | decide | (simp only [length_set_sz, length_set_native,
      List.length_append, List.length_singleton, length_buildTransform]; omega)) only
    [_buildLayer, _buildTransform, ht, jerry_object, get_sz_set_sz_of_ne, get_sz_set_native,
    get_sz_append_empty, get_sz_set_sz_same, get_sz_set_sz_of_ne_ref, length_set_sz,
    length_set_native, List.length_append, List.length_singleton, EXP_NAME, EXP_WIDTH,
    EXP_HEIGHT, get_native_set_sz, get_native_set_native_of_ne, get_native_append,
    get_native_set_native_same]

/-- C11, evaluated on the code: in the `transform` object `_buildLayer` makes
for a layer with a transform, `scale` is bound to the scale property, but the
object bound to the opacity property is stored under the key `rotation`, where
it replaces the object bound to the rotation property, and there is no key
`opacity`. -/
theorem buildLayer_transform_rotation_holds_opacity (h : Heap N) (r : Nat)
    (layer : LottieLayer N) (comp : LottieComposition N) (t : LottieTransform)
    (hr : r < h.length) (ht : layer.transform = some t) :
    jerry_object_get_native_ptr (_buildLayer h (.object r) layer comp)
      (jerry_object_get_sz (_buildLayer h (.object r) layer comp)
        (jerry_object_get_sz (_buildLayer h (.object r) layer comp) (.object r) "transform")
        "scale") = .property t.scale ∧
    jerry_object_get_native_ptr (_buildLayer h (.object r) layer comp)
      (jerry_object_get_sz (_buildLayer h (.object r) layer comp)
        (jerry_object_get_sz (_buildLayer h (.object r) layer comp) (.object r) "transform")
        "rotation") = .property t.opacity ∧
    jerry_object_get_sz (_buildLayer h (.object r) layer comp)
      (jerry_object_get_sz (_buildLayer h (.object r) layer comp) (.object r) "transform")
      "opacity" = .undefined := by
  refine ⟨?_, ?_, ?_⟩ <;>
  simp (disch := first | omega | decide | (simp only [length_set_sz, length_set_native,
      List.length_append, List.length_singleton, length_buildTransform]; omega)) only
    [_buildLayer, _buildTransform, ht, jerry_object, get_sz_set_sz_of_ne, get_sz_set_native,
    get_sz_append_empty, get_sz_set_sz_same, get_sz_set_sz_of_ne_ref, length_set_sz,
    length_set_native, List.length_append, List.length_singleton, EXP_NAME, EXP_WIDTH,
    EXP_HEIGHT, get_native_set_sz, get_native_set_native_of_ne, get_native_append,
    get_native_set_native_same, get_sz_of_length_le]

/-- C15: for every layer, with or without a parent, the `enabled` field that
`_buildLayer` writes into a live context object is the negation of the layer's
hidden flag. -/
theorem buildLayer_enabled (h : Heap N) (r : Nat) (layer : LottieLayer N)
    (comp : LottieComposition N) (hr : r < h.length) :
    jerry_object_get_sz (_buildLayer h (.object r) layer comp) (.object r) "enabled"
      = .boolean (!layer.hidden) := by
  simp (disch := first | omega | decide | (simp only [length_set_sz, length_set_native,
      List.length_append, List.length_singleton, length_buildTransform]; omega)) only [_buildLayer, jerry_object,
      get_sz_set_sz_of_ne, get_sz_set_native, get_sz_append_empty, get_sz_set_sz_same,
      buildTransform_get_sz_of_ne, EXP_NAME, EXP_WIDTH, EXP_HEIGHT, jerry_boolean]

/-- The fields `width`, `height`, `name`, `inPoint` and `outPoint` of the object
`_buildLayer` fills are the layer's `w`, `h`, `name`, `inFrame` and `outFrame`. -/
theorem buildLayer_geometry_fields (h : Heap N) (r : Nat) (layer : LottieLayer N)
    (comp : LottieComposition N) (hr : r < h.length) :
    jerry_object_get_sz (_buildLayer h (.object r) layer comp) (.object r) "width"
      = .number layer.w ∧
    jerry_object_get_sz (_buildLayer h (.object r) layer comp) (.object r) "height"
      = .number layer.h ∧
    jerry_object_get_sz (_buildLayer h (.object r) layer comp) (.object r) "name"
      = .string layer.name ∧
    jerry_object_get_sz (_buildLayer h (.object r) layer comp) (.object r) "inPoint"
      = .number layer.inFrame ∧
    jerry_object_get_sz (_buildLayer h (.object r) layer comp) (.object r) "outPoint"
      = .number layer.outFrame := by
  refine ⟨?_, ?_, ?_, ?_, ?_⟩ <;>
  simp (disch := first | omega | decide | (simp only [length_set_sz, length_set_native,
      List.length_append, List.length_singleton, length_buildTransform]; omega)) only [_buildLayer, jerry_object,
      get_sz_set_sz_of_ne, get_sz_set_native, get_sz_append_empty, get_sz_set_sz_same,
      buildTransform_get_sz_of_ne, EXP_NAME, EXP_WIDTH, EXP_HEIGHT, jerry_number,
      jerry_string, length_set_sz, length_set_native, List.length_append,
      List.length_singleton, length_buildTransform]

end LayerObjectTheorems

/-! ## The lookup handlers -/

section LookupTheorems

variable {N : Type}

theorem length_buildLayer (h : Heap N) (ctx : JValue N) (layer : LottieLayer N)
    (comp : LottieComposition N) :
    (_buildLayer h ctx layer comp).length =
      h.length + 2 + (if layer.transform.isSome then 6 else 0) := by
  simp only [_buildLayer, jerry_object, length_set_sz, length_set_native, List.length_append,
    List.length_singleton, length_buildTransform]
  omega

/-- The objects alive before `_buildLayer` keep their native handles. -/
theorem buildLayer_native_live (h : Heap N) (ctx : JValue N) (layer : LottieLayer N)
    (comp : LottieComposition N) (r : Nat) (hr : r < h.length) :
    jerry_object_get_native_ptr (_buildLayer h ctx layer comp) (.object r) =
      jerry_object_get_native_ptr h (.object r) := by
  simp (disch := first | omega | decide | (simp only [length_set_sz, length_set_native,
      List.length_append, List.length_singleton, length_buildTransform]; omega)) only [_buildLayer, jerry_object, get_native_set_sz, get_native_set_native_of_ne,
    get_native_append, buildTransform_native, length_set_sz, length_set_native,
    List.length_append, List.length_singleton, length_buildTransform]

/-- The key `transform` of the object `_buildLayer` fills, for a layer with a
transform: the second object made. -/
theorem buildLayer_transform_ref (h : Heap N) (r : Nat) (layer : LottieLayer N)
    (comp : LottieComposition N) (t : LottieTransform) (hr : r < h.length)
    (ht : layer.transform = some t) :
    jerry_object_get_sz (_buildLayer h (.object r) layer comp) (.object r) "transform"
      = .object (h.length + 1) := by
  simp (disch := first | omega | decide | (simp only [length_set_sz, length_set_native,
      List.length_append, List.length_singleton, length_buildTransform]; omega)) only
    [_buildLayer, _buildTransform, ht, jerry_object, get_sz_set_sz_of_ne, get_sz_set_native,
    get_sz_append_empty, get_sz_set_sz_same, get_sz_set_sz_of_ne_ref, length_set_sz,
    length_set_native, List.length_append, List.length_singleton, EXP_NAME, EXP_WIDTH,
    EXP_HEIGHT]

/-- The key `position` of that transform object: the fourth object made. -/
theorem buildLayer_position_ref (h : Heap N) (r : Nat) (layer : LottieLayer N)
    (comp : LottieComposition N) (t : LottieTransform) (hr : r < h.length)
    (ht : layer.transform = some t) :
    jerry_object_get_sz (_buildLayer h (.object r) layer comp) (.object (h.length + 1))
      "position" = .object (h.length + 1 + 1 + 1) := by
  simp (disch := first | omega | decide | (simp only [length_set_sz, length_set_native,
      List.length_append, List.length_singleton, length_buildTransform]; omega)) only
    [_buildLayer, _buildTransform, ht, jerry_object, get_sz_set_sz_of_ne, get_sz_set_native,
    get_sz_append_empty, get_sz_set_sz_same, get_sz_set_sz_of_ne_ref, length_set_sz,
    length_set_native, List.length_append, List.length_singleton, EXP_NAME, EXP_WIDTH,
    EXP_HEIGHT]

/-- A name of ASCII characters without a zero has as many bytes as characters,
so `_name` hands it on whole. -/
theorem name_of_fitting (H : Host N) (s : String)
    (hfit : s.utf8ByteSize ≤ jerry_string_length (.string s : JValue N))
    (hzero : Char.ofNat 0 ∉ s.data) : _name H (.string s) = s := by
  simp [_name, jerry_value_to_string, jerry_string_to_buffer, hfit, hzero]

/-- A name whose UTF-8 form is longer than its character count reaches the
lookup as whatever the cut copy reads as. -/
theorem name_of_cut (H : Host N) (s : String)
    (hcut : jerry_string_length (.string s : JValue N) < s.utf8ByteSize) :
    _name H (.string s) = H.cut s (jerry_string_length (.string s : JValue N)) := by
  have hnot : ¬ s.utf8ByteSize ≤ jerry_string_length (.string s : JValue N) :=
    Nat.not_le.mpr hcut
  simp [_name, jerry_value_to_string, jerry_string_to_buffer, hnot]

/-- On the scene: the one-character name U+00E9 has two bytes in UTF-8, so the
buffer of one byte does not hold it and the lookup key is the cut reading, not
the name. -/
theorem name_of_accented_letter :
    jerry_string_length (.string (String.mk [Char.ofNat 233]) : JValue Int) = 1 ∧
    (String.mk [Char.ofNat 233]).utf8ByteSize = 2 ∧
    _name sceneHost (.string (String.mk [Char.ofNat 233])) =
      sceneHost.cut (String.mk [Char.ofNat 233]) 1 := by
  decide

/-- What `_layer` returns when the lookup finds a layer. -/
theorem layer_of_found (H : Host N) (h : Heap N) (fn arg : JValue N) (L : LottieLayer N)
    (hL : (if jerry_value_is_number arg then
        (H.composition (jerry_object_get_native_ptr h fn)).layerByIndex
          (jerry_value_as_integer H.trunc arg % 65536).toNat
      else
        (H.composition (jerry_object_get_native_ptr h fn)).layerByName
          (_name H arg)) = some L) :
    _layer H h fn [arg] =
      (.object h.length,
        _buildLayer (jerry_object_set_native_ptr (jerry_object h).2 (.object h.length)
          (.layer L.addr)) (.object h.length) L
          (H.composition (jerry_object_get_native_ptr h fn))) := by
  simp only [_layer, List.length_singleton, ne_eq, not_true_eq_false, if_false,
    List.getD_cons_zero, hL, jerry_object]

/-- What `_comp` returns when the lookup finds a layer. -/
theorem comp_of_found (H : Host N) (h : Heap N) (fn arg : JValue N) (L : LottieLayer N)
    (hL : (H.composition (jerry_object_get_native_ptr h fn)).asset (_name H arg)
      = some L) :
    _comp H h fn [arg] =
      (.object h.length,
        _buildLayer (jerry_object_set_native_ptr (jerry_object h).2 (.object h.length)
          (.layer L.addr)) (.object h.length) L
          (H.composition (jerry_object_get_native_ptr h fn))) := by
  simp only [_comp, List.length_singleton, ne_eq, not_true_eq_false, if_false,
    List.getD_cons_zero, hL, jerry_object]

/-- The object made for a found layer carries the handle of that layer. -/
theorem found_layer_handle (h : Heap N) (L : LottieLayer N) (comp : LottieComposition N) :
    jerry_object_get_native_ptr
      (_buildLayer (jerry_object_set_native_ptr (jerry_object h).2 (.object h.length)
        (.layer L.addr)) (.object h.length) L comp) (.object h.length) = .layer L.addr := by
  rw [buildLayer_native_live _ _ _ _ _ (by simp [jerry_object])]
  exact get_native_set_native_same _ _ _ (by simp [jerry_object])

/-- C14: called with one argument, `_comp` returns `undefined` exactly when the
asset lookup of the composition finds nothing, `_layer` returns `undefined`
exactly when the layer lookup of the composition (by index for a number, by name
otherwise) finds nothing, and `_shape` returns `undefined` exactly when the
content lookup of the layer finds nothing. When the lookup finds a layer, `_comp`
and `_layer` return the same thing: a new object carrying the handle of that
layer, filled by `_buildLayer` for that layer. -/
theorem lookup_miss_returns_undefined (H : Host N) (h : Heap N) (fn arg : JValue N) :
    ((_comp H h fn [arg]).1 = .undefined ↔
      (H.composition (jerry_object_get_native_ptr h fn)).asset (_name H arg)
        = none) ∧
    ((_layer H h fn [arg]).1 = .undefined ↔
      (if jerry_value_is_number arg then
        (H.composition (jerry_object_get_native_ptr h fn)).layerByIndex
          (jerry_value_as_integer H.trunc arg % 65536).toNat
      else
        (H.composition (jerry_object_get_native_ptr h fn)).layerByName
          (_name H arg)) = none) ∧
    ((_shape H h fn [arg]).1 = .undefined ↔
      H.layerContent (jerry_object_get_native_ptr h fn) (_name H arg) = none) ∧
    (∀ L : LottieLayer N,
      (H.composition (jerry_object_get_native_ptr h fn)).asset (_name H arg)
        = some L →
      _comp H h fn [arg] =
        (.object h.length,
          _buildLayer (jerry_object_set_native_ptr (jerry_object h).2 (.object h.length)
            (.layer L.addr)) (.object h.length) L
            (H.composition (jerry_object_get_native_ptr h fn))) ∧
      jerry_object_get_native_ptr (_comp H h fn [arg]).2 (_comp H h fn [arg]).1
        = .layer L.addr) ∧
    (∀ L : LottieLayer N,
      (if jerry_value_is_number arg then
        (H.composition (jerry_object_get_native_ptr h fn)).layerByIndex
          (jerry_value_as_integer H.trunc arg % 65536).toNat
      else
        (H.composition (jerry_object_get_native_ptr h fn)).layerByName
          (_name H arg)) = some L →
      _layer H h fn [arg] =
        (.object h.length,
          _buildLayer (jerry_object_set_native_ptr (jerry_object h).2 (.object h.length)
            (.layer L.addr)) (.object h.length) L
            (H.composition (jerry_object_get_native_ptr h fn))) ∧
      jerry_object_get_native_ptr (_layer H h fn [arg]).2 (_layer H h fn [arg]).1
        = .layer L.addr) := by
  refine ⟨?_, ?_, ?_, fun L hL => ?_, fun L hL => ?_⟩
  · cases hA : (H.composition (jerry_object_get_native_ptr h fn)).asset
        (_name H arg) with
    | none => simp [_comp, hA, jerry_undefined]
    | some L => simp [comp_of_found H h fn arg L hA]
  · cases hA : (if jerry_value_is_number arg then
        (H.composition (jerry_object_get_native_ptr h fn)).layerByIndex
          (jerry_value_as_integer H.trunc arg % 65536).toNat
      else
        (H.composition (jerry_object_get_native_ptr h fn)).layerByName
          (_name H arg)) with
    | none => simp [_layer, hA, jerry_undefined]
    | some L => simp [layer_of_found H h fn arg L hA]
  · cases hA : H.layerContent (jerry_object_get_native_ptr h fn) (_name H arg) with
    | none => simp [_shape, hA, jerry_undefined]
    | some G => simp [_shape, hA, jerry_function_external]
  · rw [comp_of_found H h fn arg L hL]
    exact ⟨rfl, found_layer_handle h L _⟩
  · rw [layer_of_found H h fn arg L hL]
    exact ⟨rfl, found_layer_handle h L _⟩

/-- C14 on the scene: `comp("x")` and `layer(7)` find nothing, `layer("A")`
finds layer "A", `content("Shape")` finds the shape group of layer "A" and
`content("none")` finds nothing. -/
theorem lookup_miss_returns_undefined_witness :
    (_comp sceneHost sceneSession.heap (.object 1) [.string "x"]).1 = .undefined ∧
    (_layer sceneHost sceneSession.heap (.object 5) [.number 7]).1 = .undefined ∧
    (_shape sceneHost sceneSessionAfterA.heap
      (jerry_object_get_sz sceneSessionAfterA.heap (.object 0) "content")
      [.string "none"]).1 = .undefined ∧
    (_shape sceneHost sceneSessionAfterA.heap
      (jerry_object_get_sz sceneSessionAfterA.heap (.object 0) "content")
      [.string "Shape"]).1 ≠ .undefined ∧
    (_layer sceneHost sceneSession.heap (.object 5) [.string "A"]).1 = .object 16 ∧
    jerry_object_get_native_ptr
      (_layer sceneHost sceneSession.heap (.object 5) [.string "A"]).2
      (_layer sceneHost sceneSession.heap (.object 5) [.string "A"]).1 = .layer layerA.addr :=
  ⟨(lookup_miss_returns_undefined sceneHost sceneSession.heap (.object 1)
      (.string "x")).1.mpr (by decide),
    (lookup_miss_returns_undefined sceneHost sceneSession.heap (.object 5)
      (.number 7)).2.1.mpr (by decide),
    (lookup_miss_returns_undefined sceneHost sceneSessionAfterA.heap
      (jerry_object_get_sz sceneSessionAfterA.heap (.object 0) "content")
      (.string "none")).2.2.1.mpr (by decide),
    fun hmiss => absurd ((lookup_miss_returns_undefined sceneHost sceneSessionAfterA.heap
      (jerry_object_get_sz sceneSessionAfterA.heap (.object 0) "content")
      (.string "Shape")).2.2.1.mp hmiss) (by decide),
    congrArg Prod.fst ((lookup_miss_returns_undefined sceneHost sceneSession.heap (.object 5)
      (.string "A")).2.2.2.2 layerA (by decide)).1,
    ((lookup_miss_returns_undefined sceneHost sceneSession.heap (.object 5)
      (.string "A")).2.2.2.2 layerA (by decide)).2⟩

/-- C13: when `layer(name)` and `layer(index)` resolve to the same layer `L`
(the lookup by the key `_name` makes of the string argument, and the lookup by
the index cast to `uint16_t`, both find `L`), the two objects returned have the
same `width`, `height`, `name`, `inPoint` and `outPoint`: the `w`, `h`, `name`,
`inFrame` and `outFrame` of `L`. -/
theorem layer_by_name_and_by_index_agree (H : Host N) (h1 h2 : Heap N) (fn1 fn2 : JValue N)
    (name : String) (index : N) (L : LottieLayer N)
    (hname : (H.composition (jerry_object_get_native_ptr h1 fn1)).layerByName
      (_name H (.string name)) = some L)
    (hindex : (H.composition (jerry_object_get_native_ptr h2 fn2)).layerByIndex
      (H.trunc index % 65536).toNat = some L) :
    (jerry_object_get_sz (_layer H h1 fn1 [.string name]).2
        (_layer H h1 fn1 [.string name]).1 "width" = .number L.w ∧
      jerry_object_get_sz (_layer H h2 fn2 [.number index]).2
        (_layer H h2 fn2 [.number index]).1 "width" = .number L.w) ∧
    (jerry_object_get_sz (_layer H h1 fn1 [.string name]).2
        (_layer H h1 fn1 [.string name]).1 "height" = .number L.h ∧
      jerry_object_get_sz (_layer H h2 fn2 [.number index]).2
        (_layer H h2 fn2 [.number index]).1 "height" = .number L.h) ∧
    (jerry_object_get_sz (_layer H h1 fn1 [.string name]).2
        (_layer H h1 fn1 [.string name]).1 "name" = .string L.name ∧
      jerry_object_get_sz (_layer H h2 fn2 [.number index]).2
        (_layer H h2 fn2 [.number index]).1 "name" = .string L.name) ∧
    (jerry_object_get_sz (_layer H h1 fn1 [.string name]).2
        (_layer H h1 fn1 [.string name]).1 "inPoint" = .number L.inFrame ∧
      jerry_object_get_sz (_layer H h2 fn2 [.number index]).2
        (_layer H h2 fn2 [.number index]).1 "inPoint" = .number L.inFrame) ∧
    (jerry_object_get_sz (_layer H h1 fn1 [.string name]).2
        (_layer H h1 fn1 [.string name]).1 "outPoint" = .number L.outFrame ∧
      jerry_object_get_sz (_layer H h2 fn2 [.number index]).2
        (_layer H h2 fn2 [.number index]).1 "outPoint" = .number L.outFrame) := by
  have byName := layer_of_found H h1 fn1 (.string name) L hname
  have byIndex := layer_of_found H h2 fn2 (.number index) L hindex
  have fields1 := buildLayer_geometry_fields
    (jerry_object_set_native_ptr (jerry_object h1).2 (.object h1.length) (.layer L.addr))
    h1.length L (H.composition (jerry_object_get_native_ptr h1 fn1)) (by simp [jerry_object])
  have fields2 := buildLayer_geometry_fields
    (jerry_object_set_native_ptr (jerry_object h2).2 (.object h2.length) (.layer L.addr))
    h2.length L (H.composition (jerry_object_get_native_ptr h2 fn2)) (by simp [jerry_object])
  rw [byName, byIndex]
  exact ⟨⟨fields1.1, fields2.1⟩, ⟨fields1.2.1, fields2.2.1⟩, ⟨fields1.2.2.1, fields2.2.2.1⟩,
    ⟨fields1.2.2.2.1, fields2.2.2.2.1⟩, ⟨fields1.2.2.2.2, fields2.2.2.2.2⟩⟩

/-- C13 on the scene: `layer("B")` on the prepared session and `layer(2)` on
the session after one `evaluate`. -/
theorem layer_by_name_and_by_index_agree_witness :
    (jerry_object_get_sz (_layer sceneHost sceneSession.heap (.object 5) [.string "B"]).2
        (_layer sceneHost sceneSession.heap (.object 5) [.string "B"]).1 "width"
        = .number 640 ∧
      jerry_object_get_sz (_layer sceneHost sceneSessionAfterA.heap (.object 5) [.number 2]).2
        (_layer sceneHost sceneSessionAfterA.heap (.object 5) [.number 2]).1 "width"
        = .number 640) ∧
    (jerry_object_get_sz (_layer sceneHost sceneSession.heap (.object 5) [.string "B"]).2
        (_layer sceneHost sceneSession.heap (.object 5) [.string "B"]).1 "name"
        = .string "B" ∧
      jerry_object_get_sz (_layer sceneHost sceneSessionAfterA.heap (.object 5) [.number 2]).2
        (_layer sceneHost sceneSessionAfterA.heap (.object 5) [.number 2]).1 "name"
        = .string "B") :=
  have agree := layer_by_name_and_by_index_agree sceneHost sceneSession.heap
    sceneSessionAfterA.heap (.object 5) (.object 5) "B" 2 layerB (by decide) (by decide)
  ⟨agree.1, agree.2.2.1⟩

end LookupTheorems

/-! ## Reading the position of another layer -/

section PositionTheorems

variable {N : Type}

theorem length_buildProperty [Zero N] (h : Heap N) (ctx : JValue N) (exp : LottieExpression N) :
    (_buildProperty h ctx exp).length = h.length + 7 := by
  simp only [_buildProperty, jerry_object, jerry_function_external, length_set_sz,
    length_set_native, List.length_append, List.length_singleton]

/-- Rebuilding the bindings at the start of `evaluate` only adds objects. -/
theorem length_updateGlobalContext [Zero N] (s : LottieExpressions N)
    (exp : LottieExpression N) : s.heap.length ≤ (updateGlobalContext s exp).length := by
  unfold updateGlobalContext
  cases exp.object with
  | transform t =>
    simp only [length_buildTransform, length_buildProperty, length_buildLayer,
      length_set_native]
    omega
  | other n =>
    simp only [length_buildProperty, length_buildLayer, length_set_native]
    omega

/-- C12: for every layer `L` with a transform, the key `position` of the
`transform` object of the introspection object `_layer` returns for `L` is
bound to the position property of the transform (the object bound to the anchor
property, written first under the same key, is replaced). So when the
expression is the program `$bm_rt = thisComp.layer(name).transform.position`
and the lookup `_layer` makes for that name (by the key `_name` makes of it)
finds `L`, the point overload of `result` sets the destination to the value of
that position property at the frame passed to `result`, through one call of the
property with that frame. -/
theorem result_layer_transform_position [Zero N] (E : Engine N) (H : Host N)
    (point : NativePtr → N → Point N) (s : LottieExpressions N) (f : N)
    (exp : LottieExpression N) (out : Point N) (g : Nat) (layerFn : JValue N)
    (name : String) (L : LottieLayer N) (t : LottieTransform)
    (hglobal : s.global = .object g) (hlive : g < s.heap.length)
    (hL : (H.composition (jerry_object_get_native_ptr (updateGlobalContext s exp)
      layerFn)).layerByName (_name H (.string name)) = some L)
    (ht : L.transform = some t)
    (hrun : E.eval exp.code (updateGlobalContext s exp) =
      layerTransformPosition H (updateGlobalContext s exp) s.global layerFn name) :
    jerry_object_get_native_ptr (_layer H (updateGlobalContext s exp) layerFn [.string name]).2
      (jerry_object_get_sz (_layer H (updateGlobalContext s exp) layerFn [.string name]).2
        (jerry_object_get_sz (_layer H (updateGlobalContext s exp) layerFn [.string name]).2
          (_layer H (updateGlobalContext s exp) layerFn [.string name]).1 "transform")
        "position") = .property t.position ∧
    (resultPoint E point s f out exp).out = point (.property t.position) f ∧
    (resultPoint E point s f out exp).self.calls = s.calls ++ [(.property t.position, f)] := by
  have hlen := length_updateGlobalContext s exp
  simp only [resultPoint, evaluate]
  generalize updateGlobalContext s exp = h0 at hL hrun hlen ⊢
  have found := layer_of_found H h0 layerFn (.string name) L hL
  have hA : h0.length < (jerry_object_set_native_ptr (jerry_object h0).2 (.object h0.length)
      (.layer L.addr)).length := by simp [jerry_object]
  have tr := buildLayer_transform_ref _ h0.length L
    (H.composition (jerry_object_get_native_ptr h0 layerFn)) t hA ht
  have pr := buildLayer_position_ref _ h0.length L
    (H.composition (jerry_object_get_native_ptr h0 layerFn)) t hA ht
  have pn := buildLayer_position_handle _ h0.length L
    (H.composition (jerry_object_get_native_ptr h0 layerFn)) t hA ht
  have hB : g < (_buildLayer (jerry_object_set_native_ptr (jerry_object h0).2
      (.object h0.length) (.layer L.addr)) (.object h0.length) L
      (H.composition (jerry_object_get_native_ptr h0 layerFn))).length := by
    rw [length_buildLayer]
    omega
  refine ⟨?_, ?_⟩
  · rw [found]
    exact pn
  · rw [tr, pr] at pn
    simp only [hrun, layerTransformPosition, found, tr, pr, hglobal,
      get_sz_set_sz_same _ _ _ _ hB, get_native_set_sz, pn]
    simp

/-- C12 on the scene: the expression of layer "B" reads the position of layer
"A" at frame 10; the destination receives the value of the property at address
12, the position of the transform of "A" (its anchor is at address 11). -/
theorem result_layer_transform_position_witness :
    jerry_object_get_native_ptr
      (_layer sceneHost (updateGlobalContext sceneSession
        (expressionB "$bm_rt = thisComp.layer('A').transform.position")) (.object 5)
        [.string "A"]).2
      (jerry_object_get_sz
        (_layer sceneHost (updateGlobalContext sceneSession
          (expressionB "$bm_rt = thisComp.layer('A').transform.position")) (.object 5)
          [.string "A"]).2
        (jerry_object_get_sz
          (_layer sceneHost (updateGlobalContext sceneSession
            (expressionB "$bm_rt = thisComp.layer('A').transform.position")) (.object 5)
            [.string "A"]).2
          (_layer sceneHost (updateGlobalContext sceneSession
            (expressionB "$bm_rt = thisComp.layer('A').transform.position")) (.object 5)
            [.string "A"]).1 "transform")
        "position") = .property transformA.position ∧
    (resultPoint sceneEngine (fun p f => ⟨sceneProperty p f, 0⟩) sceneSession 10 ⟨3, 4⟩
      (expressionB "$bm_rt = thisComp.layer('A').transform.position")).out
      = ⟨sceneProperty (.property transformA.position) 10, 0⟩ ∧
    (resultPoint sceneEngine (fun p f => ⟨sceneProperty p f, 0⟩) sceneSession 10 ⟨3, 4⟩
      (expressionB "$bm_rt = thisComp.layer('A').transform.position")).self.calls
      = sceneSession.calls ++ [(.property transformA.position, 10)] :=
  result_layer_transform_position sceneEngine sceneHost (fun p f => ⟨sceneProperty p f, 0⟩)
    sceneSession 10 (expressionB "$bm_rt = thisComp.layer('A').transform.position") ⟨3, 4⟩ 0
    (.object 5) "A" layerA transformA (by decide) (by decide) (by decide) (by decide)
    (by decide)

end PositionTheorems

/-! ## The layer objects of the scene -/

section SceneLayerTheorems

/-- C11 on the scene: layer "A" built into the `thisLayer` object of the
prepared session; its transform has the scale at address 13, the rotation at
14 and the opacity at 15. -/
theorem buildLayer_transform_rotation_holds_opacity_witness :
    jerry_object_get_native_ptr (_buildLayer sceneSession.heap (.object 3) layerA sceneComp)
      (jerry_object_get_sz (_buildLayer sceneSession.heap (.object 3) layerA sceneComp)
        (jerry_object_get_sz (_buildLayer sceneSession.heap (.object 3) layerA sceneComp)
          (.object 3) "transform")
        "scale") = .property 13 ∧
    jerry_object_get_native_ptr (_buildLayer sceneSession.heap (.object 3) layerA sceneComp)
      (jerry_object_get_sz (_buildLayer sceneSession.heap (.object 3) layerA sceneComp)
        (jerry_object_get_sz (_buildLayer sceneSession.heap (.object 3) layerA sceneComp)
          (.object 3) "transform")
        "rotation") = .property 15 ∧
    jerry_object_get_sz (_buildLayer sceneSession.heap (.object 3) layerA sceneComp)
      (jerry_object_get_sz (_buildLayer sceneSession.heap (.object 3) layerA sceneComp)
        (.object 3) "transform")
      "opacity" = .undefined :=
  buildLayer_transform_rotation_holds_opacity sceneSession.heap 3 layerA sceneComp transformA
    (by decide) (by decide)

/-- C15 on the scene: layer "B" is hidden and has no parent, layer "A" is
shown and has a parent. -/
theorem buildLayer_enabled_witness :
    jerry_object_get_sz (_buildLayer sceneSession.heap (.object 3) layerB sceneComp)
      (.object 3) "enabled" = .boolean false ∧
    jerry_object_get_sz (_buildLayer sceneSession.heap (.object 3) layerA sceneComp)
      (.object 3) "enabled" = .boolean true :=
  ⟨buildLayer_enabled sceneSession.heap 3 layerB sceneComp (by decide),
    buildLayer_enabled sceneSession.heap 3 layerA sceneComp (by decide)⟩

end SceneLayerTheorems

/-! ## The property bindings of `evaluate` -/

section PropertyTheorems

variable {N : Type}

theorem handler_set_sz (h : Heap N) (o x : JValue N) (k : String) (v : JValue N) :
    externalHandler (jerry_object_set_sz h o k v) x = externalHandler h x := by
  cases x with
  | object r' =>
    cases o with
    | object r =>
      simp only [externalHandler, lookup_set_sz]
      by_cases e : r = r'
      · subst e
        cases h[r]? <;> simp
      · simp [e]
    | _ => rfl
  | _ => rfl

theorem handler_set_native (h : Heap N) (o x : JValue N) (p : NativePtr) :
    externalHandler (jerry_object_set_native_ptr h o p) x = externalHandler h x := by
  cases x with
  | object r' =>
    cases o with
    | object r =>
      simp only [externalHandler, lookup_set_native]
      by_cases e : r = r'
      · subst e
        cases h[r]? <;> simp
      · simp [e]
    | _ => rfl
  | _ => rfl

theorem handler_append (h l : Heap N) (r : Nat) (hr : r < h.length) :
    externalHandler (h ++ l) (.object r) = externalHandler h (.object r) := by
  simp [externalHandler, List.getElem?_append_left hr]

theorem handler_append_new (h : Heap N) (o : JObject N) (r : Nat) (hle : h.length ≤ r)
    (hge : r ≤ h.length) :
    externalHandler (h ++ [o]) (.object r) = o.function := by
  have hr : r = h.length := Nat.le_antisymm hge hle
  subst hr
  simp [externalHandler]

/-- The function objects alive before `_buildTransform` keep their handlers. -/
theorem buildTransform_handler (h : Heap N) (ctx : JValue N) (t : Option LottieTransform)
    (r : Nat) (hr : r < h.length) :
    externalHandler (_buildTransform h ctx t) (.object r) = externalHandler h (.object r) := by
  cases t with
  | none => rfl
  | some t =>
    simp (disch := first | omega | decide | (simp only [length_set_sz, length_set_native,
      List.length_append, List.length_singleton, length_buildTransform]; omega)) only [_buildTransform, jerry_object, handler_set_sz, handler_set_native,
      handler_append]

/-- An object alive before `_buildLayer` other than the context keeps all its
properties. -/
theorem buildLayer_get_sz_other (h : Heap N) (r r' : Nat) (layer : LottieLayer N)
    (comp : LottieComposition N) (k : String) (hr : r' < h.length) (hne : r ≠ r') :
    jerry_object_get_sz (_buildLayer h (.object r) layer comp) (.object r') k =
      jerry_object_get_sz h (.object r') k := by
  simp (disch := first | omega | decide | (simp only [length_set_sz, length_set_native,
      List.length_append, List.length_singleton, length_buildTransform]; omega)) only [_buildLayer, jerry_object, get_sz_set_sz_of_ne_ref, get_sz_set_native,
    get_sz_append_empty, buildTransform_get_sz_other, length_set_sz, length_set_native,
    List.length_append, List.length_singleton]

/-- The bindings `_buildProperty` writes into a live context object. -/
theorem buildProperty_fields [Zero N] (h : Heap N) (g : Nat) (exp : LottieExpression N)
    (hg : g < h.length) :
    (jerry_object_get_sz (_buildProperty h (.object g) exp) (.object g) "numKeys"
        = .number exp.property.frameCnt ∧
      jerry_object_get_sz (_buildProperty h (.object g) exp) (.object g) "velocity"
        = .number 0 ∧
      jerry_object_get_sz (_buildProperty h (.object g) exp) (.object g) "speed"
        = .number 0) ∧
    (jerry_object_get_sz (_buildProperty h (.object g) exp) (.object g) "value"
        = .object h.length ∧
      jerry_object_get_native_ptr (_buildProperty h (.object g) exp) (.object h.length)
        = .property exp.property.addr) ∧
    (jerry_object_get_sz (_buildProperty h (.object g) exp) (.object g) "valueAtTime"
        = .object (h.length + 1) ∧
      externalHandler (_buildProperty h (.object g) exp) (.object (h.length + 1))
        = some ._valueAtTime) ∧
    (jerry_object_get_sz (_buildProperty h (.object g) exp) (.object g) "velocityAtTime"
        = .object (h.length + 1 + 1) ∧
      externalHandler (_buildProperty h (.object g) exp) (.object (h.length + 1 + 1))
        = some ._velocityAtTime) ∧
    (jerry_object_get_sz (_buildProperty h (.object g) exp) (.object g) "speedAtTime"
        = .object (h.length + 1 + 1 + 1) ∧
      externalHandler (_buildProperty h (.object g) exp) (.object (h.length + 1 + 1 + 1))
        = some ._speedAtTime) ∧
    (jerry_object_get_sz (_buildProperty h (.object g) exp) (.object g) "key"
        = .object (h.length + 1 + 1 + 1 + 1) ∧
      externalHandler (_buildProperty h (.object g) exp) (.object (h.length + 1 + 1 + 1 + 1))
        = some ._key) ∧
    (jerry_object_get_sz (_buildProperty h (.object g) exp) (.object g) "nearestKey"
        = .object (h.length + 1 + 1 + 1 + 1 + 1) ∧
      externalHandler (_buildProperty h (.object g) exp)
        (.object (h.length + 1 + 1 + 1 + 1 + 1)) = some ._nearestKey) ∧
    (jerry_object_get_sz (_buildProperty h (.object g) exp) (.object g) "content"
        = .object (h.length + 1 + 1 + 1 + 1 + 1 + 1) ∧
      externalHandler (_buildProperty h (.object g) exp)
        (.object (h.length + 1 + 1 + 1 + 1 + 1 + 1)) = some ._shape) := by
  refine ⟨⟨?_, ?_, ?_⟩, ⟨?_, ?_⟩, ⟨?_, ?_⟩, ⟨?_, ?_⟩, ⟨?_, ?_⟩, ⟨?_, ?_⟩, ⟨?_, ?_⟩, ⟨?_, ?_⟩⟩ <;>
  simp (disch := first | omega | decide | (simp only [length_set_sz, length_set_native,
      List.length_append, List.length_singleton, length_buildTransform]; omega)) only [_buildProperty, jerry_object, jerry_function_external, jerry_number,
    EXP_CONTENT, get_sz_set_sz_of_ne, get_sz_set_native, get_sz_append_empty,
    get_sz_set_sz_same, get_sz_set_sz_of_ne_ref, length_set_sz, length_set_native,
    List.length_append, List.length_singleton, get_native_set_sz,
    get_native_set_native_of_ne, get_native_append, get_native_set_native_same,
    handler_set_sz, handler_set_native, handler_append, handler_append_new]

/-- The objects alive before `_buildProperty` keep their native handles. -/
theorem buildProperty_native_live [Zero N] (h : Heap N) (ctx : JValue N)
    (exp : LottieExpression N) (r : Nat) (hr : r < h.length) :
    jerry_object_get_native_ptr (_buildProperty h ctx exp) (.object r) =
      jerry_object_get_native_ptr h (.object r) := by
  simp (disch := first | omega | decide | (simp only [length_set_sz, length_set_native,
      List.length_append, List.length_singleton, length_buildTransform]; omega)) only [_buildProperty, jerry_object, jerry_function_external, get_native_set_sz,
    get_native_set_native_of_ne, get_native_append, length_set_sz, length_set_native,
    List.length_append, List.length_singleton]

/-- An object alive before `_buildProperty` other than the context keeps all
its properties. -/
theorem buildProperty_get_sz_other [Zero N] (h : Heap N) (r r' : Nat)
    (exp : LottieExpression N) (k : String) (hr : r' < h.length) (hne : r ≠ r') :
    jerry_object_get_sz (_buildProperty h (.object r) exp) (.object r') k =
      jerry_object_get_sz h (.object r') k := by
  simp (disch := first | omega | decide | (simp only [length_set_sz, length_set_native,
      List.length_append, List.length_singleton, length_buildTransform]; omega)) only [_buildProperty, jerry_object, jerry_function_external,
    get_sz_set_sz_of_ne_ref, get_sz_set_native, get_sz_append_empty, length_set_sz,
    length_set_native, List.length_append, List.length_singleton]

/-- The bindings in place when the script starts: the property fields are on the
global object, the `thisProperty` object has its handle set and nothing else. -/
theorem updateGlobalContext_property_fields [Zero N] (s : LottieExpressions N)
    (exp : LottieExpression N) (g l p : Nat) (hglobal : s.global = .object g)
    (hlayer : s.thisLayer = .object l) (hprop : s.thisProperty = .object p)
    (hg : g < s.heap.length) (hp : p < s.heap.length) (hpg : p ≠ g) (hpl : p ≠ l) :
    (jerry_object_get_sz (updateGlobalContext s exp) (.object g) "numKeys"
        = .number exp.property.frameCnt ∧
      jerry_object_get_sz (updateGlobalContext s exp) (.object g) "velocity" = .number 0 ∧
      jerry_object_get_sz (updateGlobalContext s exp) (.object g) "speed" = .number 0) ∧
    jerry_object_get_native_ptr (updateGlobalContext s exp)
      (jerry_object_get_sz (updateGlobalContext s exp) (.object g) "value")
      = .property exp.property.addr ∧
    (externalHandler (updateGlobalContext s exp)
        (jerry_object_get_sz (updateGlobalContext s exp) (.object g) "valueAtTime")
        = some ._valueAtTime ∧
      externalHandler (updateGlobalContext s exp)
        (jerry_object_get_sz (updateGlobalContext s exp) (.object g) "velocityAtTime")
        = some ._velocityAtTime ∧
      externalHandler (updateGlobalContext s exp)
        (jerry_object_get_sz (updateGlobalContext s exp) (.object g) "speedAtTime")
        = some ._speedAtTime ∧
      externalHandler (updateGlobalContext s exp)
        (jerry_object_get_sz (updateGlobalContext s exp) (.object g) "key") = some ._key ∧
      externalHandler (updateGlobalContext s exp)
        (jerry_object_get_sz (updateGlobalContext s exp) (.object g) "nearestKey")
        = some ._nearestKey ∧
      externalHandler (updateGlobalContext s exp)
        (jerry_object_get_sz (updateGlobalContext s exp) (.object g) "content")
        = some ._shape) ∧
    jerry_object_get_native_ptr (updateGlobalContext s exp) (.object p)
      = .property exp.property.addr ∧
    (∀ k : String, jerry_object_get_sz (updateGlobalContext s exp) (.object p) k
      = jerry_object_get_sz s.heap (.object p) k) := by
  unfold updateGlobalContext
  dsimp only
  rw [hglobal, hlayer, hprop]
  generalize hA : jerry_object_set_native_ptr s.heap (.object l) (.layer exp.layer.addr) = A
  have lenA : A.length = s.heap.length := by rw [← hA]; simp
  generalize hB : _buildLayer A (.object l) exp.layer s.comp = B
  have lenB : A.length ≤ B.length := by rw [← hB, length_buildLayer]; omega
  have getB : ∀ k : String,
      jerry_object_get_sz B (.object p) k = jerry_object_get_sz s.heap (.object p) k := by
    intro k
    rw [← hB, buildLayer_get_sz_other A l p exp.layer s.comp k (by omega) (Ne.symm hpl), ← hA,
      get_sz_set_native]
  generalize hC : jerry_object_set_native_ptr B (.object p) (.property exp.property.addr) = C
  have lenC : C.length = B.length := by rw [← hC]; simp
  have natC : jerry_object_get_native_ptr C (.object p) = .property exp.property.addr := by
    rw [← hC]
    exact get_native_set_native_same B p _ (by omega)
  have getC : ∀ k : String,
      jerry_object_get_sz C (.object p) k = jerry_object_get_sz s.heap (.object p) k := by
    intro k
    rw [← hC, get_sz_set_native, getB]
  obtain ⟨⟨f1, f2, f3⟩, ⟨v1, v2⟩, ⟨a1, a2⟩, ⟨b1, b2⟩, ⟨c1, c2⟩, ⟨d1, d2⟩, ⟨e1, e2⟩, ⟨g1, g2⟩⟩ :=
    buildProperty_fields C g exp (by omega)
  have natD := buildProperty_native_live C (.object g) exp p (by omega)
  have getD := fun k : String =>
    buildProperty_get_sz_other C g p exp k (by omega) (Ne.symm hpg)
  have lenD := length_buildProperty C (.object g) exp
  generalize _buildProperty C (.object g) exp = D at *
  cases exp.object with
  | other n =>
    dsimp only
    refine ⟨⟨f1, f2, f3⟩, ?_, ⟨?_, ?_, ?_, ?_, ?_, ?_⟩, natD.trans natC,
      fun k => (getD k).trans (getC k)⟩
    · rw [v1]; exact v2
    · rw [a1]; exact a2
    · rw [b1]; exact b2
    · rw [c1]; exact c2
    · rw [d1]; exact d2
    · rw [e1]; exact e2
    · rw [g1]; exact g2
  | transform t =>
    dsimp only
    refine ⟨⟨?_, ?_, ?_⟩, ?_, ⟨?_, ?_, ?_, ?_, ?_, ?_⟩, ?_, fun k => ?_⟩
    all_goals
      simp (disch := first | omega | decide) only [buildTransform_get_sz_of_ne,
        buildTransform_native, buildTransform_handler, buildTransform_get_sz_other,
        f1, f2, f3, v1, v2, a1, a2, b1, b2, c1, c2, d1, d2, e1, e2, g1, g2, natD, natC, getD,
        getC]

/-- Writing the result slot keeps the bindings. -/
theorem keepsBindings_set_result (h : Heap N) (o v : JValue N) :
    keepsBindings h (jerry_object_set_sz h o "$bm_rt" v) :=
  ⟨fun x k hk => get_sz_set_sz_of_ne h o x "$bm_rt" k v (Ne.symm hk),
    fun x => get_native_set_sz h o x "$bm_rt" v, fun x => handler_set_sz h o x "$bm_rt" v⟩

/-- C19: `evaluate` installs the property introspection fields on the global
object, not on `thisProperty`. For a session whose `global` and `thisProperty`
are live objects, `thisProperty` being neither the global object nor
`thisLayer`, and a script that touches no binding other than the result slot:
after `evaluate` the global object has `numKeys` equal to the frame count of the
property of the expression, `value` bound to that property, `velocity` and
`speed` equal to 0, and the functions `valueAtTime`, `velocityAtTime`,
`speedAtTime`, `key`, `nearestKey` and `content` (the handlers `_valueAtTime`,
`_velocityAtTime`, `_speedAtTime`, `_key`, `_nearestKey` and `_shape`), while
the `thisProperty` object has its native handle set to the property and every
one of its keys reads as before the call. -/
theorem evaluate_installs_property_fields_on_global [Zero N] (E : Engine N)
    (s : LottieExpressions N) (f : N) (exp : LottieExpression N) (g l p : Nat)
    (hglobal : s.global = .object g) (hlayer : s.thisLayer = .object l)
    (hprop : s.thisProperty = .object p) (hg : g < s.heap.length) (hp : p < s.heap.length)
    (hpg : p ≠ g) (hpl : p ≠ l)
    (hrun : keepsBindings (updateGlobalContext s exp)
      (E.eval exp.code (updateGlobalContext s exp)).1) :
    (jerry_object_get_sz (evaluate E s f exp).2.heap s.global "numKeys"
        = .number exp.property.frameCnt ∧
      jerry_object_get_sz (evaluate E s f exp).2.heap s.global "velocity" = .number 0 ∧
      jerry_object_get_sz (evaluate E s f exp).2.heap s.global "speed" = .number 0) ∧
    jerry_object_get_native_ptr (evaluate E s f exp).2.heap
      (jerry_object_get_sz (evaluate E s f exp).2.heap s.global "value")
      = .property exp.property.addr ∧
    (externalHandler (evaluate E s f exp).2.heap
        (jerry_object_get_sz (evaluate E s f exp).2.heap s.global "valueAtTime")
        = some ._valueAtTime ∧
      externalHandler (evaluate E s f exp).2.heap
        (jerry_object_get_sz (evaluate E s f exp).2.heap s.global "velocityAtTime")
        = some ._velocityAtTime ∧
      externalHandler (evaluate E s f exp).2.heap
        (jerry_object_get_sz (evaluate E s f exp).2.heap s.global "speedAtTime")
        = some ._speedAtTime ∧
      externalHandler (evaluate E s f exp).2.heap
        (jerry_object_get_sz (evaluate E s f exp).2.heap s.global "key") = some ._key ∧
      externalHandler (evaluate E s f exp).2.heap
        (jerry_object_get_sz (evaluate E s f exp).2.heap s.global "nearestKey")
        = some ._nearestKey ∧
      externalHandler (evaluate E s f exp).2.heap
        (jerry_object_get_sz (evaluate E s f exp).2.heap s.global "content")
        = some ._shape) ∧
    jerry_object_get_native_ptr (evaluate E s f exp).2.heap s.thisProperty
      = .property exp.property.addr ∧
    (∀ k : String, k ≠ "$bm_rt" →
      jerry_object_get_sz (evaluate E s f exp).2.heap s.thisProperty k
        = jerry_object_get_sz s.heap s.thisProperty k) := by
  have hheap : (evaluate E s f exp).2.heap = (E.eval exp.code (updateGlobalContext s exp)).1 :=
    rfl
  obtain ⟨hk, hn, hf⟩ := hrun
  obtain ⟨⟨f1, f2, f3⟩, v, ⟨a, b, c, d, e, c'⟩, np, gp⟩ :=
    updateGlobalContext_property_fields s exp g l p hglobal hlayer hprop hg hp hpg hpl
  rw [hheap, hglobal, hprop]
  refine ⟨⟨?_, ?_, ?_⟩, ?_, ⟨?_, ?_, ?_, ?_, ?_, ?_⟩, ?_, fun k hkey => ?_⟩
  · rw [hk _ _ (by decide)]; exact f1
  · rw [hk _ _ (by decide)]; exact f2
  · rw [hk _ _ (by decide)]; exact f3
  · rw [hk _ _ (by decide), hn]; exact v
  · rw [hk _ _ (by decide), hf]; exact a
  · rw [hk _ _ (by decide), hf]; exact b
  · rw [hk _ _ (by decide), hf]; exact c
  · rw [hk _ _ (by decide), hf]; exact d
  · rw [hk _ _ (by decide), hf]; exact e
  · rw [hk _ _ (by decide), hf]; exact c'
  · rw [hn]; exact np
  · rw [hk _ _ hkey]; exact gp k

/-- C19 on the scene: the expression `$bm_rt = 5` on the opacity of layer "A"
(2 key frames, address 15); `thisProperty` is object 4 and has no key
`numKeys`. -/
theorem evaluate_installs_property_fields_on_global_witness :
    jerry_object_get_sz (evaluate sceneEngine sceneSession 10
      (expressionA "$bm_rt = 5")).2.heap sceneSession.global "numKeys" = .number 2 ∧
    jerry_object_get_native_ptr (evaluate sceneEngine sceneSession 10
      (expressionA "$bm_rt = 5")).2.heap
      (jerry_object_get_sz (evaluate sceneEngine sceneSession 10
        (expressionA "$bm_rt = 5")).2.heap sceneSession.global "value") = .property 15 ∧
    externalHandler (evaluate sceneEngine sceneSession 10 (expressionA "$bm_rt = 5")).2.heap
      (jerry_object_get_sz (evaluate sceneEngine sceneSession 10
        (expressionA "$bm_rt = 5")).2.heap sceneSession.global "content") = some ._shape ∧
    jerry_object_get_native_ptr (evaluate sceneEngine sceneSession 10
      (expressionA "$bm_rt = 5")).2.heap sceneSession.thisProperty = .property 15 ∧
    jerry_object_get_sz (evaluate sceneEngine sceneSession 10
      (expressionA "$bm_rt = 5")).2.heap sceneSession.thisProperty "numKeys"
      = jerry_object_get_sz sceneSession.heap sceneSession.thisProperty "numKeys" :=
  have installed := evaluate_installs_property_fields_on_global sceneEngine sceneSession 10
    (expressionA "$bm_rt = 5") 0 3 4 (by decide) (by decide) (by decide) (by decide)
    (by decide) (by decide) (by decide)
    (keepsBindings_set_result (updateGlobalContext sceneSession (expressionA "$bm_rt = 5"))
      (.object 0) (.number 5))
  ⟨installed.1.1, installed.2.1, installed.2.2.1.2.2.2.2.2, installed.2.2.2.1,
    installed.2.2.2.2 "numKeys" (by decide)⟩

end PropertyTheorems

end ThorVG
